import Mathlib

/-!
TranslucentTB `Window` wrapper (`src/TranslucentTB/window.cpp`).

A shallow embedding of the `Window` member functions.  The process-wide statics
(`m_ClassNames`, `m_Filenames`, and the two function-local statics of
`on_current_desktop`) become fields of an explicit `State`; the operating system is an
explicit snapshot `OS` of the answers its entry points give while one operation runs; every
OS call and every report accepted by the error sink is appended to `State.trace`.
-/

namespace TranslucentTB

/-! ## Machine types -/

/-- A `wchar_t` code unit. -/
abbrev wchar_t := Nat

/-- A `std::wstring`: the code units before the terminator. -/
abbrev WString := List wchar_t

/-- Wide string literal `L"..."`. -/
def L (s : String) : WString := s.toList.map Char.toNat

/-- Window handle value (`HWND`); `Window` equality and hashing are those of the handle. -/
abbrev HWND := Nat

/-- Width of `size_t` in bits. -/
def SIZE_BITS : Nat := 64

/-- The constant `std::wstring::npos`, the largest `size_t`. -/
def npos : Nat := 2 ^ SIZE_BITS - 1

/-- Reinterpretation of a 32-bit pattern as a signed `long` (`HRESULT`). -/
def toLong (x : Nat) : Int :=
  if x % 2 ^ 32 < 2 ^ 31 then ((x % 2 ^ 32 : Nat) : Int) else ((x % 2 ^ 32 : Nat) : Int) - 2 ^ 32

/-- The SDK test `FAILED(hr)`: the status is negative. -/
def FAILED (hr : Int) : Bool := decide (hr < 0)

/-- The SDK test `SUCCEEDED(hr)`: the status is non-negative. -/
def SUCCEEDED (hr : Int) : Bool := decide (0 ≤ hr)

/-- The SDK inline `HRESULT_FROM_WIN32(x)`:
`(HRESULT)x <= 0 ? (HRESULT)x : (HRESULT)((x & 0x0000FFFF) | (FACILITY_WIN32 << 16) | 0x80000000)`
with `FACILITY_WIN32 = 7`. -/
def HRESULT_FROM_WIN32 (x : Nat) : Int :=
  if toLong x ≤ 0 then toLong x
  else toLong (((x % 2 ^ 32) &&& 0x0000FFFF) ||| (7 <<< 16) ||| 0x80000000)

/-! ## `std::wstring` members used by `filename` -/

/-- Search of `std::wstring::find_last_of` over the first `n` code units of `s`, scanning from
the left and remembering the last hit in `best`. -/
def findLastFrom (chars : WString) : WString → Nat → Nat → Nat
  | [], _, best => best
  | c :: rest, i, best => findLastFrom chars rest (i + 1) (if c ∈ chars then i else best)

/-- Member `s.find_last_of(chars)`: the index of the last code unit of `s` that occurs in
`chars`, or `npos` when there is none. -/
def find_last_of (s chars : WString) : Nat :=
  findLastFrom chars s 0 npos

/-- Member `s.erase(pos, count)` for `pos = 0`: removes the first `min(count, size)` code
units. -/
def erase0 (s : WString) (count : Nat) : WString :=
  s.drop (min count s.length)

/-- Lines 90-92 of `window.cpp`:
`exeName.erase(0, exeName.find_last_of(LR"(/\)") + 1)`, the addition being `size_t`
arithmetic (so `npos + 1` wraps to `0`). -/
def stripPath (exeName : WString) : WString :=
  erase0 exeName ((find_last_of exeName (L "/\\") + 1) % 2 ^ SIZE_BITS)

/-- The basename in the words of the specification: the code units that follow the last
directory separator of either slash style (the whole string when there is none). -/
def basenameSpec (p : WString) : WString :=
  (p.reverse.takeWhile (fun c => !(c == 47 || c == 92))).reverse

/-! ## SDK structures and constants -/

/-- The SDK structure `POINT`. -/
structure POINT where
  x : Int
  y : Int
deriving DecidableEq, Repr

/-- The SDK structure `RECT`. -/
structure RECT where
  left : Int
  top : Int
  right : Int
  bottom : Int
deriving DecidableEq, Repr

/-- The SDK structure `WINDOWPLACEMENT`. -/
structure WINDOWPLACEMENT where
  length : Nat
  flags : Nat
  showCmd : Nat
  ptMinPosition : POINT
  ptMaxPosition : POINT
  rcNormalPosition : RECT
deriving DecidableEq, Repr

/-- Value-initialised `WINDOWPLACEMENT result {}`: every member zero. -/
def WINDOWPLACEMENT.zeroed : WINDOWPLACEMENT :=
  { length := 0, flags := 0, showCmd := 0, ptMinPosition := { x := 0, y := 0 },
    ptMaxPosition := { x := 0, y := 0 },
    rcNormalPosition := { left := 0, top := 0, right := 0, bottom := 0 } }

/-- Value-initialised `RECT`: every member zero. -/
def RECT.zeroed : RECT := { left := 0, top := 0, right := 0, bottom := 0 }

/-- The SDK show-state `SW_SHOW`. -/
def SW_SHOW : Nat := 5

/-- The SDK flag `MONITOR_DEFAULTTOPRIMARY`. -/
def MONITOR_DEFAULTTOPRIMARY : Nat := 1

/-- The SDK access right `PROCESS_QUERY_LIMITED_INFORMATION`. -/
def PROCESS_QUERY_LIMITED_INFORMATION : Nat := 0x1000

/-- Arguments of `CreateWindowEx`, in the order `Window::Create` passes them. -/
structure CreateArgs where
  dwExStyle : Nat
  className : WString
  windowName : WString
  dwStyle : Nat
  x : Int
  y : Int
  nWidth : Int
  nHeight : Int
  parent : HWND
  hMenu : Nat
  hInstance : Nat
  lpParam : Nat
deriving DecidableEq, Repr

/-! ## The operating system seen by one operation -/

/-- Last-error code a failing Win32 call leaves behind: a non-zero `DWORD`. -/
structure ErrorCode where
  code : Nat
  nonzero : code ≠ 0
  dword : code < 2 ^ 32

/-- Answer of a Win32 entry point that signals failure through its return value and the
thread last-error code. -/
inductive Win32 (α : Type) where
  | ok (a : α)
  | fail (e : ErrorCode)

/-- Answer of an entry point that returns an `HRESULT` and fills an out-parameter; `out` is
written to the caller's buffer exactly when the status succeeds. -/
structure ComAnswer (α : Type) where
  hr : Int
  out : α

/-- What the operating system answers while one `Window` operation runs, together with the
indeterminate contents of that operation's uninitialised locals. -/
structure OS where
  /-- Thread last-error code in effect when the operation starts. -/
  lastError : Nat
  FindWindowEx : HWND → HWND → Option WString → Option WString → HWND
  CreateWindowEx : CreateArgs → HWND
  /-- Current text of a window; `GetWindowTextLength` and `GetWindowText` both read it. -/
  windowText : HWND → Win32 WString
  /-- Class name written for a window into a buffer of the given size. -/
  GetClassName : HWND → Nat → Win32 WString
  /-- Thread id and process id of a window, `none` when the call fails (returns 0 and leaves
  the out-parameter untouched). -/
  GetWindowThreadProcessId : HWND → Option (Nat × Nat)
  /-- Arguments: desired access, inherit flag, process id. -/
  OpenProcess : Nat → Bool → Nat → Win32 Nat
  /-- Arguments: process handle, flags, buffer size. -/
  QueryFullProcessImageName : Nat → Nat → Nat → Win32 WString
  /-- Creation of the `IVirtualDesktopManager` instance. -/
  CoCreateInstance : ComAnswer Nat
  /-- Arguments: the interface pointer, the window. -/
  IsWindowOnCurrentVirtualDesktop : Nat → HWND → ComAnswer Int
  /-- Arguments: the window, the structure passed in. -/
  GetWindowPlacement : HWND → WINDOWPLACEMENT → Win32 WINDOWPLACEMENT
  ShowWindow : HWND → Int → Int
  IsWindowVisible : HWND → Int
  MonitorFromWindow : HWND → Nat → Nat
  SendMessage : HWND → Nat → Nat → Int → Int
  RegisterWindowMessage : WString → Nat
  /-- Arguments: the window, the attribute id, the buffer size. -/
  DwmGetWindowAttributeBOOL : HWND → Nat → Nat → ComAnswer Int
  DwmGetWindowAttributeRECT : HWND → Nat → Nat → ComAnswer RECT
  /-- Indeterminate content of the local `DWORD ProcessId;` of `filename`. -/
  indeterminateDWORD : Nat
  /-- Indeterminate content of the local `T attribute;` of `get_attribute<BOOL>`. -/
  indeterminateBOOL : Int
  /-- Indeterminate content of the local `T attribute;` of `get_attribute<RECT>`. -/
  indeterminateRECT : RECT

/-! ## Program state -/

/-- One observable action: a call into the operating system, or a report accepted by the
error sink. -/
inductive Event where
  | FindWindowEx (parent childAfter : HWND) (cls name : Option WString)
  | CreateWindowEx (a : CreateArgs)
  | GetWindowTextLength (h : HWND)
  | GetWindowText (h : HWND) (nMaxCount : Nat)
  | GetClassName (h : HWND) (nMaxCount : Nat)
  | GetWindowThreadProcessId (h : HWND)
  | OpenProcess (access : Nat) (pid : Nat)
  | QueryFullProcessImageName (process : Nat) (size : Nat)
  | CloseHandle (handle : Nat)
  | CoCreateInstance
  | IsWindowOnCurrentVirtualDesktop (iface : Nat) (h : HWND)
  | GetWindowPlacement (h : HWND)
  | ShowWindow (h : HWND) (state : Int)
  | IsWindowVisible (h : HWND)
  | MonitorFromWindow (h : HWND) (flags : Nat)
  | SendMessage (h : HWND) (message wparam : Nat) (lparam : Int)
  | RegisterWindowMessage (name : WString)
  | DwmGetWindowAttribute (h : HWND) (attrib size : Nat)
  | GetLastError
  | report (hr : Int) (message : String)
deriving DecidableEq, Repr

/-- A `std::unordered_map<Window, std::wstring>`. -/
abbrev Cache := List (HWND × WString)

/-- Member `m.count(k)`. -/
def mapCount (m : Cache) (k : HWND) : Nat :=
  match m.lookup k with
  | some _ => 1
  | none => 0

/-- Member `m.at(k)` (throws when the key is absent; every caller checks `count` first). -/
def mapAt (m : Cache) (k : HWND) : WString :=
  match m.lookup k with
  | some v => v
  | none => []

/-- Statement `m[k] = v`: inserts the key or overwrites its value. -/
def mapAssign (m : Cache) (k : HWND) (v : WString) : Cache :=
  (k, v) :: m.filter (fun e => e.1 != k)

/-- The process-wide statics of `window.cpp` and the trace of observable actions. -/
structure State where
  m_ClassNames : Cache
  m_Filenames : Cache
  /-- The function-local `static CComPtr<IVirtualDesktopManager>`; `none` is the null
  pointer. -/
  desktop_manager : Option Nat
  /-- The function-local `static bool failed`. -/
  failed : Bool
  trace : List Event
deriving DecidableEq, Repr

/-- State at process start: empty caches, null service pointer, flag unset. -/
def State.init : State :=
  { m_ClassNames := [], m_Filenames := [], desktop_manager := none, failed := false,
    trace := [] }

/-- Appends one action to the trace. -/
def emit (e : Event) (s : State) : State :=
  { s with trace := s.trace ++ [e] }

/-- Modelled from the spec: the `ErrorHandle` macro of `ttberror.hpp`, the error-reporting
sink, which is not among the sources.  It accepts a status code, a severity level (always
`Error::Level::Log` here) and a message; a failure status is reported, nothing is thrown and
the caller is never halted.  The callers use its result as "the status succeeded". -/
def ErrorHandle (hr : Int) (message : String) (s : State) : Bool × State :=
  if FAILED hr then (false, emit (Event.report hr message) s) else (true, s)

/-- The reports the error sink accepted, oldest first. -/
def reports : List Event → List (Int × String)
  | [] => []
  | Event.report hr m :: rest => (hr, m) :: reports rest
  | _ :: rest => reports rest

/-! ## Win32 entry points derived from the snapshot

Each returns its result together with the thread last-error code after the call: a failing
call stores its error code, any other call leaves the code as it was. -/

/-- Entry point `GetWindowTextLength(h)`: the length of the text, 0 on failure. -/
def GetWindowTextLength (os : OS) (err : Nat) (h : HWND) : Nat × Nat :=
  match os.windowText h with
  | Win32.ok t => (t.length, err)
  | Win32.fail e => (0, e.code)

/-- Entry point `GetWindowText(h, buffer, nMaxCount)`: copies at most `nMaxCount - 1` code
units and a terminator; returns the number copied (0 on failure, and 0 for an empty text)
and the string left in the buffer. -/
def GetWindowText (os : OS) (err : Nat) (h : HWND) (nMaxCount : Nat) : Nat × WString × Nat :=
  match os.windowText h with
  | Win32.ok t => ((t.take (nMaxCount - 1)).length, t.take (nMaxCount - 1), err)
  | Win32.fail e => (0, [], e.code)

/-- Entry point `GetClassName(h, buffer, nMaxCount)`: returns the number of code units
copied (0 on failure) and the string left in the buffer. -/
def GetClassName (os : OS) (err : Nat) (h : HWND) (nMaxCount : Nat) : Nat × WString × Nat :=
  match os.GetClassName h nMaxCount with
  | Win32.ok t => (t.length, t, err)
  | Win32.fail e => (0, [], e.code)

/-- Entry point `GetWindowThreadProcessId(h, &pid)`: writes the process id on success and
leaves `pid` as it was on failure. -/
def GetWindowThreadProcessId (os : OS) (h : HWND) (pid : Nat) : Nat × Nat :=
  match os.GetWindowThreadProcessId h with
  | some (tid, p) => (tid, p)
  | none => (0, pid)

/-- Entry point `OpenProcess(access, inherit, pid)`: the handle, `NULL` (0) on failure. -/
def OpenProcess (os : OS) (err : Nat) (access : Nat) (inherit : Bool) (pid : Nat) : Nat × Nat :=
  match os.OpenProcess access inherit pid with
  | Win32.ok handle => (handle, err)
  | Win32.fail e => (0, e.code)

/-- Entry point `QueryFullProcessImageName(process, flags, buffer, &size)`: success flag and
the string left in the buffer. -/
def QueryFullProcessImageName (os : OS) (err : Nat) (process flags size : Nat) :
    Bool × WString × Nat :=
  match os.QueryFullProcessImageName process flags size with
  | Win32.ok path => (true, path, err)
  | Win32.fail e => (false, [], e.code)

/-- Entry point `GetWindowPlacement(h, &wp)`: success flag and the structure afterwards
(untouched on failure). -/
def GetWindowPlacement (os : OS) (err : Nat) (h : HWND) (wp : WINDOWPLACEMENT) :
    Bool × WINDOWPLACEMENT × Nat :=
  match os.GetWindowPlacement h wp with
  | Win32.ok r => (true, r, err)
  | Win32.fail e => (false, wp, e.code)

/-! ## The member functions of `Window` -/

/-- Static member `Window::Find`. -/
def Find (os : OS) (className windowName : WString) (parent childAfter : HWND) (s : State) :
    HWND × State :=
  let cls := if className.isEmpty then none else some className
  let name := if windowName.isEmpty then none else some windowName
  (os.FindWindowEx parent childAfter cls name,
    emit (Event.FindWindowEx parent childAfter cls name) s)

/-- Static member `Window::Create`. -/
def Create (os : OS) (a : CreateArgs) (s : State) : HWND × State :=
  (os.CreateWindowEx a, emit (Event.CreateWindowEx a) s)

/-- Member `Window::title`. -/
def title (os : OS) (w : HWND) (s : State) : WString × State :=
  let len := GetWindowTextLength os os.lastError w
  let titleSize := len.1 + 1
  let s1 := emit (Event.GetWindowTextLength w) s
  let got := GetWindowText os len.2 w titleSize
  let s2 := emit (Event.GetWindowText w titleSize) s1
  if got.1 = 0 then
    let s3 := emit Event.GetLastError s2
    let r := ErrorHandle (HRESULT_FROM_WIN32 got.2.2) "Getting title of a window failed." s3
    ([], r.2)
  else
    (got.2.1, s2)

/-- Member `Window::classname`. -/
def classname (os : OS) (w : HWND) (s : State) : WString × State :=
  if mapCount s.m_ClassNames w = 0 then
    let got := GetClassName os os.lastError w 257
    let s1 := emit (Event.GetClassName w 257) s
    if got.1 = 0 then
      let s2 := emit Event.GetLastError s1
      let r := ErrorHandle (HRESULT_FROM_WIN32 got.2.2)
        "Getting class name of a window failed." s2
      ([], { r.2 with m_ClassNames := mapAssign r.2.m_ClassNames w [] })
    else
      (got.2.1, { s1 with m_ClassNames := mapAssign s1.m_ClassNames w got.2.1 })
  else
    (mapAt s.m_ClassNames w, s)

/-- Member `Window::filename`; `LONG_PATH` is the buffer-length constant of `common.hpp`. -/
def filename (LONG_PATH : Nat) (os : OS) (w : HWND) (s : State) : WString × State :=
  if mapCount s.m_Filenames w = 0 then
    let ProcessId := (GetWindowThreadProcessId os w os.indeterminateDWORD).2
    let s1 := emit (Event.GetWindowThreadProcessId w) s
    let processHandle :=
      OpenProcess os os.lastError PROCESS_QUERY_LIMITED_INFORMATION false ProcessId
    let s2 := emit (Event.OpenProcess PROCESS_QUERY_LIMITED_INFORMATION ProcessId) s1
    if processHandle.1 = 0 then
      let s3 := emit Event.GetLastError s2
      let r := ErrorHandle (HRESULT_FROM_WIN32 processHandle.2)
        "Getting process handle of a window failed." s3
      ([], { r.2 with m_Filenames := mapAssign r.2.m_Filenames w [] })
    else
      let path_Size := LONG_PATH
      let got := QueryFullProcessImageName os processHandle.2 processHandle.1 0 path_Size
      let s3 := emit (Event.QueryFullProcessImageName processHandle.1 path_Size) s2
      if !got.1 then
        let s4 := emit Event.GetLastError s3
        let r := ErrorHandle (HRESULT_FROM_WIN32 got.2.2)
          "Getting file name of a window failed." s4
        let s5 := { r.2 with m_Filenames := mapAssign r.2.m_Filenames w [] }
        ([], emit (Event.CloseHandle processHandle.1) s5)
      else
        let exeName := stripPath got.2.1
        let s4 := { s3 with m_Filenames := mapAssign s3.m_Filenames w exeName }
        (exeName, emit (Event.CloseHandle processHandle.1) s4)
  else
    (mapAt s.m_Filenames w, s)

/-- The first half of `Window::on_current_desktop` (lines 105-111): lazy acquisition of the
service.  `CComPtr::CoCreateInstance` stores the interface on success and leaves the pointer
null on failure. -/
def acquire (os : OS) (s : State) : State :=
  if !s.failed then
    if s.desktop_manager.isNone then
      let a := os.CoCreateInstance
      let s1 := emit Event.CoCreateInstance s
      let s2 := { s1 with desktop_manager := if SUCCEEDED a.hr then some a.out else none }
      let r := ErrorHandle a.hr "Initialization of IVirtualDesktopManager failed." s2
      { r.2 with failed := !r.1 }
    else s
  else s

/-- Member `Window::on_current_desktop`. -/
def on_current_desktop (os : OS) (w : HWND) (s : State) : Bool × State :=
  let s1 := acquire os s
  if s1.failed then (true, s1)
  else
    match s1.desktop_manager with
    | none => (true, s1)
    | some p =>
      let a := os.IsWindowOnCurrentVirtualDesktop p w
      let s2 := emit (Event.IsWindowOnCurrentVirtualDesktop p w) s1
      let r := ErrorHandle a.hr
        "Verifying if a window is on the current virtual desktop failed." s2
      if !r.1 then (true, r.2) else (a.out != 0, r.2)

/-- Member `Window::placement`. -/
def placement (os : OS) (w : HWND) (s : State) : WINDOWPLACEMENT × State :=
  let result := WINDOWPLACEMENT.zeroed
  let got := GetWindowPlacement os os.lastError w result
  let s1 := emit (Event.GetWindowPlacement w) s
  if !got.1 then
    let s2 := emit Event.GetLastError s1
    let r := ErrorHandle (HRESULT_FROM_WIN32 got.2.2) "Getting placement of a window failed." s2
    (got.2.1, r.2)
  else
    (got.2.1, s1)

/-- Member `Window::state`. -/
def state (os : OS) (w : HWND) (s : State) : Nat × State :=
  let result := placement os w s
  (if result.1.length ≠ 0 then result.1.showCmd else SW_SHOW, result.2)

/-- Member `Window::show`. -/
def show_ (os : OS) (w : HWND) (st : Int) (s : State) : Bool × State :=
  (os.ShowWindow w st != 0, emit (Event.ShowWindow w st) s)

/-- Member `Window::visible`. -/
def visible (os : OS) (w : HWND) (s : State) : Bool × State :=
  (os.IsWindowVisible w != 0, emit (Event.IsWindowVisible w) s)

/-- Member `Window::monitor`. -/
def monitor (os : OS) (w : HWND) (s : State) : Nat × State :=
  (os.MonitorFromWindow w MONITOR_DEFAULTTOPRIMARY,
    emit (Event.MonitorFromWindow w MONITOR_DEFAULTTOPRIMARY) s)

/-- Member `Window::send_message(unsigned int, unsigned int, long)`. -/
def send_message (os : OS) (w : HWND) (message wparam : Nat) (lparam : Int) (s : State) :
    Int × State :=
  (os.SendMessage w message wparam lparam, emit (Event.SendMessage w message wparam lparam) s)

/-- Member `Window::send_message(const std::wstring &, unsigned int, long)`. -/
def send_message_name (os : OS) (w : HWND) (message : WString) (wparam : Nat) (lparam : Int)
    (s : State) : Int × State :=
  send_message os w (os.RegisterWindowMessage message) wparam lparam
    (emit (Event.RegisterWindowMessage message) s)

/-- Members `Window::handle` and `Window::operator HWND`. -/
def handle (w : HWND) (s : State) : HWND × State :=
  (w, s)

/-- Member template `Window::get_attribute<T>`; `query` is `DwmGetWindowAttribute` at type
`T`, `sizeofT` is `sizeof(attribute)` and `indeterminate` the content of the uninitialised
local `T attribute;`. -/
def get_attribute {T : Type} (query : HWND → Nat → Nat → ComAnswer T) (sizeofT : Nat)
    (indeterminate : T) (w : HWND) (attrib : Nat) (s : State) : T × State :=
  let attribute0 := indeterminate
  let a := query w attrib sizeofT
  let s1 := emit (Event.DwmGetWindowAttribute w attrib sizeofT) s
  let attribute1 := if SUCCEEDED a.hr then a.out else attribute0
  let status := a.hr
  let r := ErrorHandle status "Getting attribute of a window failed." s1
  (attribute1, r.2)

/-- Explicit instantiation `Window::get_attribute<BOOL>`. -/
def get_attribute_BOOL (os : OS) (w : HWND) (attrib : Nat) (s : State) : Int × State :=
  get_attribute os.DwmGetWindowAttributeBOOL 4 os.indeterminateBOOL w attrib s

/-- Explicit instantiation `Window::get_attribute<RECT>`. -/
def get_attribute_RECT (os : OS) (w : HWND) (attrib : Nat) (s : State) : RECT × State :=
  get_attribute os.DwmGetWindowAttributeRECT 16 os.indeterminateRECT w attrib s

/-! ## Sequences of operations -/

/-- One call of a `Window` operation. -/
inductive Op where
  | Find (className windowName : WString) (parent childAfter : HWND)
  | Create (a : CreateArgs)
  | title (w : HWND)
  | classname (w : HWND)
  | filename (w : HWND)
  | on_current_desktop (w : HWND)
  | state (w : HWND)
  | show_ (w : HWND) (st : Int)
  | visible (w : HWND)
  | placement (w : HWND)
  | monitor (w : HWND)
  | send_message (w : HWND) (message wparam : Nat) (lparam : Int)
  | send_message_name (w : HWND) (message : WString) (wparam : Nat) (lparam : Int)
  | handle (w : HWND)
  | get_attribute_BOOL (w : HWND) (attrib : Nat)
  | get_attribute_RECT (w : HWND) (attrib : Nat)
deriving DecidableEq, Repr

/-- The state after one call, made while the operating system answers as `os`. -/
def step (LONG_PATH : Nat) (os : OS) (op : Op) (s : State) : State :=
  match op with
  | Op.Find c n p a => (Find os c n p a s).2
  | Op.Create a => (Create os a s).2
  | Op.title w => (title os w s).2
  | Op.classname w => (classname os w s).2
  | Op.filename w => (filename LONG_PATH os w s).2
  | Op.on_current_desktop w => (on_current_desktop os w s).2
  | Op.state w => (state os w s).2
  | Op.show_ w st => (show_ os w st s).2
  | Op.visible w => (visible os w s).2
  | Op.placement w => (placement os w s).2
  | Op.monitor w => (monitor os w s).2
  | Op.send_message w m wp lp => (send_message os w m wp lp s).2
  | Op.send_message_name w m wp lp => (send_message_name os w m wp lp s).2
  | Op.handle w => (handle w s).2
  | Op.get_attribute_BOOL w a => (get_attribute_BOOL os w a s).2
  | Op.get_attribute_RECT w a => (get_attribute_RECT os w a s).2

/-- The state after a sequence of calls, each made against its own snapshot of the
operating system. -/
def run (LONG_PATH : Nat) : List (OS × Op) → State → State
  | [], s => s
  | (os, op) :: rest, s => run LONG_PATH rest (step LONG_PATH os op s)

/-! ## Observations on traces and states -/

/-- Number of class-name queries issued for window `w`. -/
def classQueries (w : HWND) (t : List Event) : Nat :=
  t.count (Event.GetClassName w 257)

/-- Number of file-name lookups started for window `w`: each one opens with the process-id
query for `w`, followed by the process-open and image-path queries. -/
def fileQueries (w : HWND) (t : List Event) : Nat :=
  t.count (Event.GetWindowThreadProcessId w)

/-- Number of attempts to acquire the desktop-membership service. -/
def acquisitions (t : List Event) : Nat :=
  t.count Event.CoCreateInstance

/-- Events counted by `classQueries`, `fileQueries` and `acquisitions`. -/
def Event.counted : Event → Bool
  | Event.GetClassName _ _ => true
  | Event.GetWindowThreadProcessId _ => true
  | Event.CoCreateInstance => true
  | _ => false

/-- State `t` differs from `s` only by further trace entries, none of them counted. -/
def Quiet (s t : State) : Prop :=
  ∃ added : List Event,
    t = { s with trace := s.trace ++ added } ∧ ∀ e ∈ added, e.counted = false

/-- Operations that read or write one of the statics. -/
def Op.stateful : Op → Bool
  | Op.classname _ => true
  | Op.filename _ => true
  | Op.on_current_desktop _ => true
  | _ => false

/-- The lifecycle of the desktop probe. -/
inductive ProbeState where
  | Uninitialized
  | Ready (service : Nat)
  | Failed
deriving DecidableEq, Repr

/-- The lifecycle state encoded by the two statics of `on_current_desktop`. -/
def probe (s : State) : ProbeState :=
  if s.failed then ProbeState.Failed
  else
    match s.desktop_manager with
    | some p => ProbeState.Ready p
    | none => ProbeState.Uninitialized

/-- Bookkeeping invariant of the two caches: a window without a cache entry has had no
query, and no window has had more than one. -/
def CountInv (s : State) : Prop :=
  ∀ w : HWND,
    (classQueries w s.trace ≤ 1 ∧
      (s.m_ClassNames.lookup w = none → classQueries w s.trace = 0)) ∧
    (fileQueries w s.trace ≤ 1 ∧
      (s.m_Filenames.lookup w = none → fileQueries w s.trace = 0))

/-- Bookkeeping invariant of the desktop probe: no acquisition has been attempted while the
probe is uninitialised, and never more than one. -/
def ProbeInv (s : State) : Prop :=
  acquisitions s.trace ≤ 1 ∧ (probe s = ProbeState.Uninitialized → acquisitions s.trace = 0)

/-! ## Concrete operating-system snapshots -/

/-- Win32 error `ERROR_ACCESS_DENIED`. -/
def ERROR_ACCESS_DENIED : ErrorCode := ⟨5, by decide, by decide⟩

/-- Win32 error `ERROR_INVALID_HANDLE`. -/
def ERROR_INVALID_HANDLE : ErrorCode := ⟨6, by decide, by decide⟩

/-- Win32 error `ERROR_INVALID_PARAMETER`. -/
def ERROR_INVALID_PARAMETER : ErrorCode := ⟨87, by decide, by decide⟩

/-- Win32 error `ERROR_INVALID_WINDOW_HANDLE`. -/
def ERROR_INVALID_WINDOW_HANDLE : ErrorCode := ⟨1400, by decide, by decide⟩

/-- Status `E_INVALIDARG` (`0x80070057`). -/
def E_INVALIDARG : Int := -2147024809

/-- Status `REGDB_E_CLASSNOTREG` (`0x80040154`). -/
def REGDB_E_CLASSNOTREG : Int := -2147221164

/-- A system on which no window exists and no service is registered: every query fails. -/
def osNothing : OS :=
  { lastError := 0
    FindWindowEx := fun _ _ _ _ => 0
    CreateWindowEx := fun _ => 0
    windowText := fun _ => Win32.fail ERROR_INVALID_WINDOW_HANDLE
    GetClassName := fun _ _ => Win32.fail ERROR_INVALID_WINDOW_HANDLE
    GetWindowThreadProcessId := fun _ => none
    OpenProcess := fun _ _ _ => Win32.fail ERROR_INVALID_PARAMETER
    QueryFullProcessImageName := fun _ _ _ => Win32.fail ERROR_INVALID_HANDLE
    CoCreateInstance := { hr := REGDB_E_CLASSNOTREG, out := 0 }
    IsWindowOnCurrentVirtualDesktop := fun _ _ => { hr := E_INVALIDARG, out := 0 }
    GetWindowPlacement := fun _ _ => Win32.fail ERROR_INVALID_WINDOW_HANDLE
    ShowWindow := fun _ _ => 0
    IsWindowVisible := fun _ => 0
    MonitorFromWindow := fun _ _ => 0
    SendMessage := fun _ _ _ _ => 0
    RegisterWindowMessage := fun _ => 0
    DwmGetWindowAttributeBOOL := fun _ _ _ => { hr := E_INVALIDARG, out := 0 }
    DwmGetWindowAttributeRECT := fun _ _ _ => { hr := E_INVALIDARG, out := RECT.zeroed }
    indeterminateDWORD := 0
    indeterminateBOOL := 0
    indeterminateRECT := RECT.zeroed }

/-- A system with one window, handle 1, of class `Shell_TrayWnd`, owned by process 4242 whose
image is `C:\Apps\tool.exe`; the window is maximised and sits on another virtual desktop; the
desktop-membership service is available as interface 9. -/
def osDesktop : OS :=
  { osNothing with
    windowText := fun h => if h = 1 then Win32.ok (L "Tool") else
      Win32.fail ERROR_INVALID_WINDOW_HANDLE
    GetClassName := fun h _ => if h = 1 then Win32.ok (L "Shell_TrayWnd") else
      Win32.fail ERROR_INVALID_WINDOW_HANDLE
    GetWindowThreadProcessId := fun h => if h = 1 then some (11, 4242) else none
    OpenProcess := fun _ _ pid => if pid = 4242 then Win32.ok 7 else
      Win32.fail ERROR_INVALID_PARAMETER
    QueryFullProcessImageName := fun process _ _ =>
      if process = 7 then Win32.ok (L "C:\\Apps\\tool.exe") else Win32.fail ERROR_INVALID_HANDLE
    CoCreateInstance := { hr := 0, out := 9 }
    IsWindowOnCurrentVirtualDesktop := fun _ h =>
      if h = 1 then { hr := 0, out := 0 } else { hr := E_INVALIDARG, out := 0 }
    GetWindowPlacement := fun h wp => if h = 1 then
        Win32.ok { wp with length := 44, showCmd := 3 }
      else Win32.fail ERROR_INVALID_WINDOW_HANDLE }

/-- State in which the desktop-membership service has been acquired as interface 9. -/
def stateReady : State :=
  { State.init with desktop_manager := some 9, trace := [Event.CoCreateInstance] }

/-- The system of `osDesktop` seen by a call whose uninitialised locals hold leftovers of
earlier calls: the `DWORD` slot still holds process id 4242, the attribute slots hold the
pattern `0xCCCCCCCC`.  Window 2 does not exist. -/
def osLeftovers : OS :=
  { osDesktop with
    indeterminateDWORD := 4242
    indeterminateBOOL := -858993460
    indeterminateRECT :=
      { left := -858993460, top := -858993460, right := -858993460, bottom := -858993460 } }

/-- The system of `osDesktop` after window 1 has been given an empty title, seen by a thread
whose last-error code is still `ERROR_ACCESS_DENIED` from an earlier failed call. -/
def osEmptyTitle : OS :=
  { osDesktop with
    lastError := 5
    windowText := fun h => if h = 1 then Win32.ok [] else
      Win32.fail ERROR_INVALID_WINDOW_HANDLE }

/-! ## Path stripping -/

theorem L_separators : L "/\\" = [47, 92] := by decide

theorem findLastFrom_no_hit (chars : WString) :
    ∀ (s : WString) (i best : Nat), (∀ c ∈ s, c ∉ chars) →
      findLastFrom chars s i best = best := by
  intro s
  induction s with
  | nil => intro i best _; rfl
  | cons a rest ih =>
    intro i best h
    have ha : a ∉ chars := h a (List.mem_cons_self a rest)
    have hrest : ∀ c ∈ rest, c ∉ chars := fun c hc => h c (List.mem_cons_of_mem a hc)
    simp only [findLastFrom, ha, if_false]
    exact ih (i + 1) best hrest

theorem findLastFrom_last_hit (chars : WString) (c : wchar_t) (suf : WString)
    (hc : c ∈ chars) (hsuf : ∀ x ∈ suf, x ∉ chars) :
    ∀ (pre : WString) (i best : Nat),
      findLastFrom chars (pre ++ c :: suf) i best = i + pre.length := by
  intro pre
  induction pre with
  | nil =>
    intro i best
    simp only [List.nil_append, findLastFrom, hc, if_true, List.length_nil, Nat.add_zero]
    exact findLastFrom_no_hit chars suf (i + 1) i hsuf
  | cons a rest ih =>
    intro i best
    show findLastFrom chars (rest ++ c :: suf) (i + 1) (if a ∈ chars then i else best)
      = i + (rest.length + 1)
    rw [ih]
    omega

theorem split_at_last_hit (chars : WString) :
    ∀ p : WString, (∀ c ∈ p, c ∉ chars) ∨
      ∃ pre c suf, p = pre ++ c :: suf ∧ c ∈ chars ∧ ∀ x ∈ suf, x ∉ chars := by
  intro p
  induction p with
  | nil => left; intro c hc; cases hc
  | cons a rest ih =>
    rcases ih with hnone | ⟨pre, c, suf, hp, hc, hsuf⟩
    · by_cases ha : a ∈ chars
      · right
        exact ⟨[], a, rest, rfl, ha, hnone⟩
      · left
        intro c hc
        rcases List.mem_cons.mp hc with rfl | hc
        · exact ha
        · exact hnone c hc
    · right
      exact ⟨a :: pre, c, suf, by rw [hp]; rfl, hc, hsuf⟩

theorem stripPath_no_separator (p : WString) (h : ∀ c ∈ p, c ∉ L "/\\") :
    stripPath p = p := by
  unfold stripPath find_last_of
  rw [findLastFrom_no_hit _ p 0 npos h]
  have : (npos + 1) % 2 ^ SIZE_BITS = 0 := by decide
  rw [this]
  simp [erase0]

theorem stripPath_after_separator (pre : WString) (c : wchar_t) (suf : WString)
    (hc : c ∈ L "/\\") (hsuf : ∀ x ∈ suf, x ∉ L "/\\")
    (hlen : (pre ++ c :: suf).length < 2 ^ SIZE_BITS) :
    stripPath (pre ++ c :: suf) = suf := by
  unfold stripPath find_last_of
  rw [findLastFrom_last_hit _ c suf hc hsuf pre 0 npos]
  have hl : (pre ++ c :: suf).length = pre.length + 1 + suf.length := by
    simp [List.length_append]; omega
  have hmod : (0 + pre.length + 1) % 2 ^ SIZE_BITS = pre.length + 1 := by
    rw [Nat.zero_add]
    apply Nat.mod_eq_of_lt
    omega
  rw [hmod]
  unfold erase0
  have hmin : min (pre.length + 1) (pre ++ c :: suf).length = pre.length + 1 := by
    rw [hl]; omega
  rw [hmin]
  have : pre ++ c :: suf = (pre ++ [c]) ++ suf := by simp
  rw [this]
  have hlen2 : pre.length + 1 = (pre ++ [c]).length := by simp
  rw [hlen2, List.drop_left]

theorem basenameSpec_no_separator (p : WString) (h : ∀ c ∈ p, c ∉ L "/\\") :
    basenameSpec p = p := by
  unfold basenameSpec
  have : p.reverse.takeWhile (fun c => !(c == 47 || c == 92)) = p.reverse := by
    apply List.takeWhile_eq_self_iff.mpr
    intro c hc
    have := h c (List.mem_reverse.mp hc)
    rw [L_separators] at this
    simp at this
    simp [this.1, this.2]
  rw [this, List.reverse_reverse]

theorem basenameSpec_after_separator (pre : WString) (c : wchar_t) (suf : WString)
    (hc : c ∈ L "/\\") (hsuf : ∀ x ∈ suf, x ∉ L "/\\") :
    basenameSpec (pre ++ c :: suf) = suf := by
  unfold basenameSpec
  rw [L_separators] at hc hsuf
  have hrev : (pre ++ c :: suf).reverse = suf.reverse ++ c :: pre.reverse := by simp
  rw [hrev, List.takeWhile_append_of_pos]
  · have hcb : (!(c == 47 || c == 92)) = false := by
      simp at hc
      rcases hc with rfl | rfl <;> simp
    rw [List.takeWhile_cons, hcb]
    simp
  · intro x hx
    have := hsuf x (List.mem_reverse.mp hx)
    simp at this
    simp [this.1, this.2]

/-! ## Status codes -/

theorem toLong_high_bit (y : Nat) (hlo : 2 ^ 31 ≤ y) (hhi : y < 2 ^ 32) : toLong y < 0 := by
  unfold toLong
  rw [Nat.mod_eq_of_lt hhi]
  have h : ¬ y < 2 ^ 31 := by omega
  rw [if_neg h]
  have : ((y : Nat) : Int) < 2 ^ 32 := by exact_mod_cast hhi
  omega

theorem HRESULT_FROM_WIN32_failed (e : ErrorCode) :
    FAILED (HRESULT_FROM_WIN32 e.code) = true := by
  have hne := e.nonzero
  have hlt := e.dword
  unfold FAILED HRESULT_FROM_WIN32
  simp only [decide_eq_true_eq]
  split
  · rename_i h
    have hpos : toLong e.code ≠ 0 := by
      unfold toLong
      rw [Nat.mod_eq_of_lt hlt]
      split
      · exact_mod_cast hne
      · have : ((e.code : Nat) : Int) < 2 ^ 32 := by exact_mod_cast hlt
        omega
    omega
  · apply toLong_high_bit
    · apply Nat.testBit_implies_ge
      rw [Nat.testBit_or]
      have : Nat.testBit 0x80000000 31 = true := by decide
      rw [this, Bool.or_true]
    · apply Nat.or_lt_two_pow
      · apply Nat.or_lt_two_pow
        · exact Nat.lt_of_le_of_lt Nat.and_le_right (by decide)
        · decide
      · decide

/-! ## Cache lemmas -/

theorem lookup_filter_ne (k j : HWND) (hkj : j ≠ k) :
    ∀ m : Cache, (m.filter (fun e => e.1 != k)).lookup j = m.lookup j := by
  intro m
  induction m with
  | nil => rfl
  | cons a rest ih =>
    obtain ⟨a1, a2⟩ := a
    by_cases h1 : a1 = k
    · subst h1
      have hj : (j == a1) = false := by simpa using hkj
      simp [List.filter_cons, List.lookup_cons, hj, ih]
    · have hf : (a1 != k) = true := by simpa using h1
      simp only [List.filter_cons, hf, if_true, List.lookup_cons]
      rw [ih]

theorem lookup_mapAssign_self (m : Cache) (k : HWND) (v : WString) :
    (mapAssign m k v).lookup k = some v := by
  simp [mapAssign, List.lookup_cons]

theorem lookup_mapAssign_ne (m : Cache) (k j : HWND) (v : WString) (hkj : j ≠ k) :
    (mapAssign m k v).lookup j = m.lookup j := by
  have hj : (j == k) = false := by simpa using hkj
  simp only [mapAssign, List.lookup_cons, hj]
  exact lookup_filter_ne k j hkj m

theorem mapCount_eq_zero (m : Cache) (k : HWND) : mapCount m k = 0 ↔ m.lookup k = none := by
  unfold mapCount
  cases m.lookup k <;> simp

theorem mapAt_of_lookup (m : Cache) (k : HWND) (v : WString) (h : m.lookup k = some v) :
    mapAt m k = v := by
  simp [mapAt, h]

/-! ## Effect of the error sink -/

@[simp]
theorem emit_trace (e : Event) (s : State) : (emit e s).trace = s.trace ++ [e] := rfl
@[simp]
theorem emit_m_ClassNames (e : Event) (s : State) :
    (emit e s).m_ClassNames = s.m_ClassNames := rfl
@[simp]
theorem emit_m_Filenames (e : Event) (s : State) :
    (emit e s).m_Filenames = s.m_Filenames := rfl
@[simp]
theorem emit_desktop_manager (e : Event) (s : State) :
    (emit e s).desktop_manager = s.desktop_manager := rfl
@[simp]
theorem emit_failed (e : Event) (s : State) : (emit e s).failed = s.failed := rfl

theorem ErrorHandle_failed (hr : Int) (m : String) (s : State) (h : FAILED hr = true) :
    ErrorHandle hr m s = (false, emit (Event.report hr m) s) := by
  simp [ErrorHandle, h]

theorem ErrorHandle_succeeded (hr : Int) (m : String) (s : State) (h : FAILED hr = false) :
    ErrorHandle hr m s = (true, s) := by
  simp [ErrorHandle, h]

theorem ErrorHandle_fst (hr : Int) (m : String) (s : State) :
    (ErrorHandle hr m s).1 = SUCCEEDED hr := by
  unfold ErrorHandle FAILED SUCCEEDED
  by_cases h : hr < 0
  · have : ¬ (0 ≤ hr) := by omega
    simp [h, this]
  · have : 0 ≤ hr := by omega
    simp [h, this]

theorem ErrorHandle_state (hr : Int) (m : String) (s : State) :
    (ErrorHandle hr m s).2 =
      { s with trace := s.trace ++ (if FAILED hr then [Event.report hr m] else []) } := by
  unfold ErrorHandle
  cases FAILED hr <;> simp [emit]

theorem reports_append (a b : List Event) : reports (a ++ b) = reports a ++ reports b := by
  induction a with
  | nil => rfl
  | cons e rest ih => cases e <;> simp [reports, ih]

/-! ## Quiet extensions of the trace -/

theorem Quiet.refl (s : State) : Quiet s s :=
  ⟨[], by simp, by simp⟩

theorem Quiet.emit_of (s t : State) (e : Event) (he : e.counted = false) (h : Quiet s t) :
    Quiet s (emit e t) := by
  obtain ⟨added, rfl, hadd⟩ := h
  refine ⟨added ++ [e], by simp [emit], ?_⟩
  intro x hx
  rcases List.mem_append.mp hx with hx | hx
  · exact hadd x hx
  · simp at hx; subst hx; exact he

theorem Quiet.errorHandle_of (s t : State) (hr : Int) (m : String) (h : Quiet s t) :
    Quiet s (ErrorHandle hr m t).2 := by
  unfold ErrorHandle
  split
  · exact Quiet.emit_of s t _ rfl h
  · exact h

theorem Quiet.trans (s t u : State) (h1 : Quiet s t) (h2 : Quiet t u) : Quiet s u := by
  obtain ⟨a1, rfl, ha1⟩ := h1
  obtain ⟨a2, rfl, ha2⟩ := h2
  refine ⟨a1 ++ a2, by simp, ?_⟩
  intro x hx
  rcases List.mem_append.mp hx with hx | hx
  · exact ha1 x hx
  · exact ha2 x hx

theorem Quiet.m_ClassNames (s t : State) (h : Quiet s t) : t.m_ClassNames = s.m_ClassNames := by
  obtain ⟨_, rfl, _⟩ := h; rfl

theorem Quiet.m_Filenames (s t : State) (h : Quiet s t) : t.m_Filenames = s.m_Filenames := by
  obtain ⟨_, rfl, _⟩ := h; rfl

theorem Quiet.desktop_manager (s t : State) (h : Quiet s t) :
    t.desktop_manager = s.desktop_manager := by
  obtain ⟨_, rfl, _⟩ := h; rfl

theorem Quiet.failed (s t : State) (h : Quiet s t) : t.failed = s.failed := by
  obtain ⟨_, rfl, _⟩ := h; rfl

theorem Quiet.count (s t : State) (h : Quiet s t) (e : Event) (he : e.counted = true) :
    t.trace.count e = s.trace.count e := by
  obtain ⟨added, rfl, hadd⟩ := h
  have hz : added.count e = 0 := by
    apply List.count_eq_zero.mpr
    intro hmem
    have := hadd e hmem
    rw [he] at this
    cases this
  simp [List.count_append, hz]

theorem step_stateless (LONG_PATH : Nat) (os : OS) (op : Op) (s : State)
    (h : op.stateful = false) : Quiet s (step LONG_PATH os op s) := by
  cases op <;> simp only [Op.stateful] at h <;> (try cases h) <;>
    simp only [step, Find, Create, title, state, placement, show_, visible, monitor,
      send_message, send_message_name, handle, get_attribute_BOOL, get_attribute_RECT,
      get_attribute] <;>
    (try split) <;>
    (try dsimp only) <;>
    repeat (first
      | exact Quiet.refl _
      | rfl
      | apply Quiet.errorHandle_of
      | apply Quiet.emit_of)

/-! ## The cached lookups -/

theorem classname_hit (os : OS) (w : HWND) (s : State) (v : WString)
    (h : s.m_ClassNames.lookup w = some v) : classname os w s = (v, s) := by
  have hc : ¬ mapCount s.m_ClassNames w = 0 := by
    rw [mapCount_eq_zero, h]; simp
  simp only [classname, if_neg hc, mapAt_of_lookup _ _ _ h]

theorem classname_miss (os : OS) (w : HWND) (s : State)
    (h : s.m_ClassNames.lookup w = none) :
    ∃ t, Quiet (emit (Event.GetClassName w 257) s) t ∧
      (classname os w s).2 =
        { t with m_ClassNames := mapAssign s.m_ClassNames w (classname os w s).1 } := by
  have hc : mapCount s.m_ClassNames w = 0 := (mapCount_eq_zero _ _).mpr h
  simp only [classname, if_pos hc]
  split
  · refine ⟨(ErrorHandle (HRESULT_FROM_WIN32 (GetClassName os os.lastError w 257).2.2)
      "Getting class name of a window failed."
      (emit Event.GetLastError (emit (Event.GetClassName w 257) s))).2, ?_, ?_⟩
    · repeat (first
        | exact Quiet.refl _ | rfl | apply Quiet.errorHandle_of | apply Quiet.emit_of)
    · simp [ErrorHandle_state]
  · exact ⟨_, Quiet.refl _, by simp⟩

theorem filename_hit (LONG_PATH : Nat) (os : OS) (w : HWND) (s : State) (v : WString)
    (h : s.m_Filenames.lookup w = some v) : filename LONG_PATH os w s = (v, s) := by
  have hc : ¬ mapCount s.m_Filenames w = 0 := by
    rw [mapCount_eq_zero, h]; simp
  simp only [filename, if_neg hc, mapAt_of_lookup _ _ _ h]

theorem filename_miss (LONG_PATH : Nat) (os : OS) (w : HWND) (s : State)
    (h : s.m_Filenames.lookup w = none) :
    ∃ t, Quiet (emit (Event.GetWindowThreadProcessId w) s) t ∧
      (filename LONG_PATH os w s).2 =
        { t with m_Filenames := mapAssign s.m_Filenames w (filename LONG_PATH os w s).1 } := by
  have hc : mapCount s.m_Filenames w = 0 := (mapCount_eq_zero _ _).mpr h
  simp only [filename, if_pos hc]
  generalize (GetWindowThreadProcessId os w os.indeterminateDWORD).2 = pid
  generalize OpenProcess os os.lastError PROCESS_QUERY_LIMITED_INFORMATION false pid = ph
  split
  · refine ⟨(ErrorHandle (HRESULT_FROM_WIN32 ph.2)
      "Getting process handle of a window failed."
      (emit Event.GetLastError (emit (Event.OpenProcess PROCESS_QUERY_LIMITED_INFORMATION pid)
        (emit (Event.GetWindowThreadProcessId w) s)))).2, ?_, ?_⟩
    · repeat (first
        | exact Quiet.refl _ | rfl | apply Quiet.errorHandle_of | apply Quiet.emit_of)
    · simp [ErrorHandle_state]
  · generalize QueryFullProcessImageName os ph.2 ph.1 0 LONG_PATH = got
    split
    · refine ⟨emit (Event.CloseHandle ph.1) (ErrorHandle (HRESULT_FROM_WIN32 got.2.2)
        "Getting file name of a window failed."
        (emit Event.GetLastError (emit (Event.QueryFullProcessImageName ph.1 LONG_PATH)
          (emit (Event.OpenProcess PROCESS_QUERY_LIMITED_INFORMATION pid)
            (emit (Event.GetWindowThreadProcessId w) s))))).2, ?_, ?_⟩
      · repeat (first
          | exact Quiet.refl _ | rfl | apply Quiet.errorHandle_of | apply Quiet.emit_of)
      · simp [ErrorHandle_state, emit]
    · refine ⟨emit (Event.CloseHandle ph.1)
        (emit (Event.QueryFullProcessImageName ph.1 LONG_PATH)
          (emit (Event.OpenProcess PROCESS_QUERY_LIMITED_INFORMATION pid)
            (emit (Event.GetWindowThreadProcessId w) s))), ?_, ?_⟩
      · repeat (first
          | exact Quiet.refl _ | rfl | apply Quiet.errorHandle_of | apply Quiet.emit_of)
      · simp [emit]

theorem classname_caches (os : OS) (w : HWND) (s : State) :
    (classname os w s).2.m_ClassNames.lookup w = some (classname os w s).1 := by
  cases h : s.m_ClassNames.lookup w with
  | some v => rw [classname_hit os w s v h]; exact h
  | none =>
    obtain ⟨t, _, ht⟩ := classname_miss os w s h
    rw [ht]
    exact lookup_mapAssign_self _ _ _

theorem filename_caches (LONG_PATH : Nat) (os : OS) (w : HWND) (s : State) :
    (filename LONG_PATH os w s).2.m_Filenames.lookup w =
      some (filename LONG_PATH os w s).1 := by
  cases h : s.m_Filenames.lookup w with
  | some v => rw [filename_hit LONG_PATH os w s v h]; exact h
  | none =>
    obtain ⟨t, _, ht⟩ := filename_miss LONG_PATH os w s h
    rw [ht]
    exact lookup_mapAssign_self _ _ _

theorem classname_m_Filenames (os : OS) (w : HWND) (s : State) :
    (classname os w s).2.m_Filenames = s.m_Filenames := by
  cases h : s.m_ClassNames.lookup w with
  | some v => rw [classname_hit os w s v h]
  | none =>
    obtain ⟨t, hq, ht⟩ := classname_miss os w s h
    rw [ht]
    show t.m_Filenames = s.m_Filenames
    rw [Quiet.m_Filenames _ _ hq]
    rfl

theorem filename_m_ClassNames (LONG_PATH : Nat) (os : OS) (w : HWND) (s : State) :
    (filename LONG_PATH os w s).2.m_ClassNames = s.m_ClassNames := by
  cases h : s.m_Filenames.lookup w with
  | some v => rw [filename_hit LONG_PATH os w s v h]
  | none =>
    obtain ⟨t, hq, ht⟩ := filename_miss LONG_PATH os w s h
    rw [ht]
    show t.m_ClassNames = s.m_ClassNames
    rw [Quiet.m_ClassNames _ _ hq]
    rfl

/-! ## The desktop probe -/

theorem FAILED_eq_not_SUCCEEDED (hr : Int) : FAILED hr = !SUCCEEDED hr := by
  unfold FAILED SUCCEEDED
  by_cases h : hr < 0
  · have : ¬ (0 ≤ hr) := by omega
    simp [h, this]
  · have : 0 ≤ hr := by omega
    simp [h, this]

theorem acquire_of_failed (os : OS) (s : State) (h : s.failed = true) : acquire os s = s := by
  simp [acquire, h]

theorem acquire_of_ready (os : OS) (s : State) (p : Nat) (h : s.desktop_manager = some p) :
    acquire os s = s := by
  simp [acquire, h]

theorem acquire_of_uninitialized (os : OS) (s : State) (hf : s.failed = false)
    (hd : s.desktop_manager = none) :
    acquire os s =
      { s with
        desktop_manager :=
          if SUCCEEDED os.CoCreateInstance.hr then some os.CoCreateInstance.out else none
        failed := !SUCCEEDED os.CoCreateInstance.hr
        trace := s.trace ++ Event.CoCreateInstance ::
          (if FAILED os.CoCreateInstance.hr then
            [Event.report os.CoCreateInstance.hr
              "Initialization of IVirtualDesktopManager failed."]
           else []) } := by
  simp only [acquire, hf, hd, Option.isNone_none, Bool.not_false, if_true, ErrorHandle_fst,
    ErrorHandle_state]
  simp [emit]

theorem acquire_m_ClassNames (os : OS) (s : State) :
    (acquire os s).m_ClassNames = s.m_ClassNames := by
  unfold acquire
  split
  · split
    · simp [ErrorHandle_state]
    · rfl
  · rfl

theorem acquire_m_Filenames (os : OS) (s : State) :
    (acquire os s).m_Filenames = s.m_Filenames := by
  unfold acquire
  split
  · split
    · simp [ErrorHandle_state]
    · rfl
  · rfl

theorem on_current_desktop_quiet (os : OS) (w : HWND) (s : State) :
    Quiet (acquire os s) (on_current_desktop os w s).2 := by
  unfold on_current_desktop
  dsimp only
  split
  · exact Quiet.refl _
  · split
    · exact Quiet.refl _
    · split <;>
        repeat (first
          | exact Quiet.refl _ | rfl | apply Quiet.errorHandle_of | apply Quiet.emit_of)

theorem on_current_desktop_of_failed (os : OS) (w : HWND) (s : State) (h : s.failed = true) :
    on_current_desktop os w s = (true, s) := by
  simp [on_current_desktop, acquire_of_failed os s h, h]

/-- The pointer is never dereferenced while null: after the acquisition phase either the
flag is set or the pointer holds an interface. -/
theorem acquire_pointer_valid (os : OS) (s : State) (h : (acquire os s).failed = false) :
    (acquire os s).desktop_manager.isSome = true := by
  cases hf : s.failed with
  | true => rw [acquire_of_failed os s hf] at h; rw [hf] at h; cases h
  | false =>
    cases hd : s.desktop_manager with
    | some p => rw [acquire_of_ready os s p hd, hd]; rfl
    | none =>
      rw [acquire_of_uninitialized os s hf hd] at h ⊢
      have hs : SUCCEEDED os.CoCreateInstance.hr = true := by
        cases hc : SUCCEEDED os.CoCreateInstance.hr with
        | true => rfl
        | false => simp [hc] at h
      simp [hs]

/-! ## Frame lemmas for single steps -/

theorem step_m_ClassNames_lookup (LONG_PATH : Nat) (os : OS) (op : Op) (s : State) (w : HWND)
    (v : WString) (h : s.m_ClassNames.lookup w = some v) :
    (step LONG_PATH os op s).m_ClassNames.lookup w = some v := by
  cases hs : op.stateful with
  | false => rw [Quiet.m_ClassNames _ _ (step_stateless LONG_PATH os op s hs)]; exact h
  | true =>
    cases op <;> simp only [Op.stateful] at hs <;> (try cases hs) <;> simp only [step]
    · rename_i w0
      cases h0 : s.m_ClassNames.lookup w0 with
      | some v0 => rw [classname_hit os w0 s v0 h0]; exact h
      | none =>
        obtain ⟨t, _, ht⟩ := classname_miss os w0 s h0
        rw [ht]
        have hne : w ≠ w0 := by
          intro heq; subst heq; rw [h] at h0; cases h0
        show (mapAssign s.m_ClassNames w0 _).lookup w = some v
        rw [lookup_mapAssign_ne _ _ _ _ hne]; exact h
    · rw [filename_m_ClassNames]; exact h
    · rw [Quiet.m_ClassNames _ _ (on_current_desktop_quiet os _ s), acquire_m_ClassNames]
      exact h

theorem step_m_Filenames_lookup (LONG_PATH : Nat) (os : OS) (op : Op) (s : State) (w : HWND)
    (v : WString) (h : s.m_Filenames.lookup w = some v) :
    (step LONG_PATH os op s).m_Filenames.lookup w = some v := by
  cases hs : op.stateful with
  | false => rw [Quiet.m_Filenames _ _ (step_stateless LONG_PATH os op s hs)]; exact h
  | true =>
    cases op <;> simp only [Op.stateful] at hs <;> (try cases hs) <;> simp only [step]
    · rw [classname_m_Filenames]; exact h
    · rename_i w0
      cases h0 : s.m_Filenames.lookup w0 with
      | some v0 => rw [filename_hit LONG_PATH os w0 s v0 h0]; exact h
      | none =>
        obtain ⟨t, _, ht⟩ := filename_miss LONG_PATH os w0 s h0
        rw [ht]
        have hne : w ≠ w0 := by
          intro heq; subst heq; rw [h] at h0; cases h0
        show (mapAssign s.m_Filenames w0 _).lookup w = some v
        rw [lookup_mapAssign_ne _ _ _ _ hne]; exact h
    · rw [Quiet.m_Filenames _ _ (on_current_desktop_quiet os _ s), acquire_m_Filenames]
      exact h

theorem run_m_ClassNames_lookup (LONG_PATH : Nat) (w : HWND) (v : WString) :
    ∀ (calls : List (OS × Op)) (s : State), s.m_ClassNames.lookup w = some v →
      (run LONG_PATH calls s).m_ClassNames.lookup w = some v := by
  intro calls
  induction calls with
  | nil => intro s h; exact h
  | cons c rest ih =>
    intro s h
    obtain ⟨os, op⟩ := c
    exact ih _ (step_m_ClassNames_lookup LONG_PATH os op s w v h)

theorem run_m_Filenames_lookup (LONG_PATH : Nat) (w : HWND) (v : WString) :
    ∀ (calls : List (OS × Op)) (s : State), s.m_Filenames.lookup w = some v →
      (run LONG_PATH calls s).m_Filenames.lookup w = some v := by
  intro calls
  induction calls with
  | nil => intro s h; exact h
  | cons c rest ih =>
    intro s h
    obtain ⟨os, op⟩ := c
    exact ih _ (step_m_Filenames_lookup LONG_PATH os op s w v h)

/-! ## Probe lifecycle -/

theorem probe_congr (s t : State) (hd : t.desktop_manager = s.desktop_manager)
    (hf : t.failed = s.failed) : probe t = probe s := by
  unfold probe; rw [hd, hf]

theorem probe_failed (s : State) : probe s = ProbeState.Failed ↔ s.failed = true := by
  unfold probe
  cases s.failed <;> cases s.desktop_manager <;> simp

theorem probe_ready (s : State) (p : Nat) :
    probe s = ProbeState.Ready p ↔ s.failed = false ∧ s.desktop_manager = some p := by
  unfold probe
  cases s.failed <;> cases s.desktop_manager <;> simp

theorem probe_uninitialized (s : State) :
    probe s = ProbeState.Uninitialized ↔ s.failed = false ∧ s.desktop_manager = none := by
  unfold probe
  cases s.failed <;> cases s.desktop_manager <;> simp

theorem Quiet.probe (s t : State) (h : Quiet s t) : probe t = probe s :=
  probe_congr s t (Quiet.desktop_manager s t h) (Quiet.failed s t h)

theorem Quiet.acquisitions (s t : State) (h : Quiet s t) :
    acquisitions t.trace = acquisitions s.trace :=
  Quiet.count s t h Event.CoCreateInstance rfl

theorem classname_probe (os : OS) (w : HWND) (s : State) :
    probe (classname os w s).2 = probe s ∧
      acquisitions (classname os w s).2.trace = acquisitions s.trace := by
  cases h : s.m_ClassNames.lookup w with
  | some v => rw [classname_hit os w s v h]; exact ⟨rfl, rfl⟩
  | none =>
    obtain ⟨t, hq, ht⟩ := classname_miss os w s h
    rw [ht]
    constructor
    · have hp := Quiet.probe _ _ hq
      exact (probe_congr t _ rfl rfl).trans hp
    · show acquisitions t.trace = _
      rw [Quiet.acquisitions _ _ hq]
      simp [acquisitions, List.count_append]

theorem filename_probe (LONG_PATH : Nat) (os : OS) (w : HWND) (s : State) :
    probe (filename LONG_PATH os w s).2 = probe s ∧
      acquisitions (filename LONG_PATH os w s).2.trace = acquisitions s.trace := by
  cases h : s.m_Filenames.lookup w with
  | some v => rw [filename_hit LONG_PATH os w s v h]; exact ⟨rfl, rfl⟩
  | none =>
    obtain ⟨t, hq, ht⟩ := filename_miss LONG_PATH os w s h
    rw [ht]
    constructor
    · have hp := Quiet.probe _ _ hq
      exact (probe_congr t _ rfl rfl).trans hp
    · show acquisitions t.trace = _
      rw [Quiet.acquisitions _ _ hq]
      simp [acquisitions, List.count_append]

theorem acquire_of_settled (os : OS) (s : State) (h : probe s ≠ ProbeState.Uninitialized) :
    acquire os s = s := by
  cases hf : s.failed with
  | true => exact acquire_of_failed os s hf
  | false =>
    cases hd : s.desktop_manager with
    | some p => exact acquire_of_ready os s p hd
    | none => exact absurd ((probe_uninitialized s).mpr ⟨hf, hd⟩) h

theorem step_probe_settled (LONG_PATH : Nat) (os : OS) (op : Op) (s : State)
    (h : probe s ≠ ProbeState.Uninitialized) :
    probe (step LONG_PATH os op s) = probe s ∧
      acquisitions (step LONG_PATH os op s).trace = acquisitions s.trace := by
  cases hs : op.stateful with
  | false =>
    have hq := step_stateless LONG_PATH os op s hs
    exact ⟨Quiet.probe _ _ hq, Quiet.acquisitions _ _ hq⟩
  | true =>
    cases op <;> simp only [Op.stateful] at hs <;> (try cases hs) <;> simp only [step]
    · exact classname_probe os _ s
    · exact filename_probe LONG_PATH os _ s
    · rename_i w
      have hq := on_current_desktop_quiet os w s
      rw [acquire_of_settled os s h] at hq
      exact ⟨Quiet.probe _ _ hq, Quiet.acquisitions _ _ hq⟩

theorem run_probe_settled (LONG_PATH : Nat) :
    ∀ (calls : List (OS × Op)) (s : State), probe s ≠ ProbeState.Uninitialized →
      probe (run LONG_PATH calls s) = probe s ∧
        acquisitions (run LONG_PATH calls s).trace = acquisitions s.trace := by
  intro calls
  induction calls with
  | nil => intro s _; exact ⟨rfl, rfl⟩
  | cons c rest ih =>
    intro s h
    obtain ⟨os, op⟩ := c
    have h1 := step_probe_settled LONG_PATH os op s h
    have h2 := ih (step LONG_PATH os op s) (by rw [h1.1]; exact h)
    exact ⟨h2.1.trans h1.1, h2.2.trans h1.2⟩

theorem step_ProbeInv (LONG_PATH : Nat) (os : OS) (op : Op) (s : State) (h : ProbeInv s) :
    ProbeInv (step LONG_PATH os op s) := by
  by_cases hu : probe s = ProbeState.Uninitialized
  · have h0 : acquisitions s.trace = 0 := h.2 hu
    cases hs : op.stateful with
    | false =>
      have hq := step_stateless LONG_PATH os op s hs
      unfold ProbeInv
      rw [Quiet.probe _ _ hq, Quiet.acquisitions _ _ hq]
      exact h
    | true =>
      cases op <;> simp only [Op.stateful] at hs <;> (try cases hs) <;> simp only [step]
      · unfold ProbeInv
        rw [(classname_probe os _ s).1, (classname_probe os _ s).2]; exact h
      · unfold ProbeInv
        rw [(filename_probe LONG_PATH os _ s).1, (filename_probe LONG_PATH os _ s).2]; exact h
      · rename_i w
        have hq := on_current_desktop_quiet os w s
        obtain ⟨hf, hd⟩ := (probe_uninitialized s).mp hu
        have hacq := acquire_of_uninitialized os s hf hd
        unfold ProbeInv
        rw [Quiet.probe _ _ hq, Quiet.acquisitions _ _ hq, hacq]
        constructor
        · simp only [acquisitions] at h0 ⊢
          rw [List.count_append, h0]
          cases FAILED os.CoCreateInstance.hr <;> simp [List.count_cons]
        · intro hp
          exfalso
          rw [probe_uninitialized] at hp
          cases hS : SUCCEEDED os.CoCreateInstance.hr <;> simp [hS] at hp
  · have h1 := step_probe_settled LONG_PATH os op s hu
    unfold ProbeInv
    rw [h1.1, h1.2]
    exact h

theorem run_ProbeInv (LONG_PATH : Nat) :
    ∀ (calls : List (OS × Op)) (s : State), ProbeInv s → ProbeInv (run LONG_PATH calls s) := by
  intro calls
  induction calls with
  | nil => intro s h; exact h
  | cons c rest ih =>
    intro s h
    obtain ⟨os, op⟩ := c
    exact ih _ (step_ProbeInv LONG_PATH os op s h)

theorem init_ProbeInv : ProbeInv State.init := by
  constructor <;> simp [State.init, acquisitions]

/-! ## At most one query per cache entry -/

theorem acquire_classQueries (os : OS) (s : State) (w : HWND) :
    classQueries w (acquire os s).trace = classQueries w s.trace := by
  by_cases hu : probe s = ProbeState.Uninitialized
  · obtain ⟨hf, hd⟩ := (probe_uninitialized s).mp hu
    rw [acquire_of_uninitialized os s hf hd]
    simp only [classQueries, List.count_append]
    cases FAILED os.CoCreateInstance.hr <;> simp [List.count_cons]
  · rw [acquire_of_settled os s hu]

theorem acquire_fileQueries (os : OS) (s : State) (w : HWND) :
    fileQueries w (acquire os s).trace = fileQueries w s.trace := by
  by_cases hu : probe s = ProbeState.Uninitialized
  · obtain ⟨hf, hd⟩ := (probe_uninitialized s).mp hu
    rw [acquire_of_uninitialized os s hf hd]
    simp only [fileQueries, List.count_append]
    cases FAILED os.CoCreateInstance.hr <;> simp [List.count_cons]
  · rw [acquire_of_settled os s hu]

theorem Quiet.classQueries (s t : State) (h : Quiet s t) (w : HWND) :
    classQueries w t.trace = classQueries w s.trace :=
  Quiet.count s t h _ rfl

theorem Quiet.fileQueries (s t : State) (h : Quiet s t) (w : HWND) :
    fileQueries w t.trace = fileQueries w s.trace :=
  Quiet.count s t h _ rfl

theorem CountInv_of_same (s t : State) (hc : t.m_ClassNames = s.m_ClassNames)
    (hf : t.m_Filenames = s.m_Filenames)
    (hcq : ∀ w, classQueries w t.trace = classQueries w s.trace)
    (hfq : ∀ w, fileQueries w t.trace = fileQueries w s.trace) (h : CountInv s) :
    CountInv t := by
  intro w
  rw [hc, hf, hcq, hfq]
  exact h w

theorem classname_CountInv (os : OS) (w0 : HWND) (s : State) (h : CountInv s) :
    CountInv (classname os w0 s).2 := by
  cases h0 : s.m_ClassNames.lookup w0 with
  | some v0 => rw [classname_hit os w0 s v0 h0]; exact h
  | none =>
    obtain ⟨t, hq, ht⟩ := classname_miss os w0 s h0
    rw [ht]
    intro w
    have hcq : classQueries w t.trace =
        classQueries w s.trace + (if w0 = w then 1 else 0) := by
      rw [Quiet.classQueries _ _ hq]
      simp only [classQueries, emit_trace, List.count_append]
      by_cases hw : w0 = w
      · subst hw; simp
      · simp [hw, List.count_cons]
    have hfq : fileQueries w t.trace = fileQueries w s.trace := by
      rw [Quiet.fileQueries _ _ hq]
      simp [fileQueries, List.count_append]
    have hfn : t.m_Filenames = s.m_Filenames := by
      rw [Quiet.m_Filenames _ _ hq]; rfl
    show (classQueries w t.trace ≤ 1 ∧
        ((mapAssign s.m_ClassNames w0 _).lookup w = none → classQueries w t.trace = 0)) ∧
      (fileQueries w t.trace ≤ 1 ∧ (t.m_Filenames.lookup w = none → fileQueries w t.trace = 0))
    rw [hcq, hfq, hfn]
    refine ⟨?_, (h w).2⟩
    by_cases hw : w0 = w
    · subst hw
      have hz := (h w0).1.2 h0
      rw [hz, lookup_mapAssign_self]
      simp
    · have hne : w ≠ w0 := fun e => hw e.symm
      rw [lookup_mapAssign_ne _ _ _ _ hne]
      simp only [hw, if_false, Nat.add_zero]
      exact (h w).1

theorem filename_CountInv (LONG_PATH : Nat) (os : OS) (w0 : HWND) (s : State)
    (h : CountInv s) : CountInv (filename LONG_PATH os w0 s).2 := by
  cases h0 : s.m_Filenames.lookup w0 with
  | some v0 => rw [filename_hit LONG_PATH os w0 s v0 h0]; exact h
  | none =>
    obtain ⟨t, hq, ht⟩ := filename_miss LONG_PATH os w0 s h0
    rw [ht]
    intro w
    have hfq : fileQueries w t.trace =
        fileQueries w s.trace + (if w0 = w then 1 else 0) := by
      rw [Quiet.fileQueries _ _ hq]
      simp only [fileQueries, emit_trace, List.count_append]
      by_cases hw : w0 = w
      · subst hw; simp
      · simp [hw, List.count_cons]
    have hcq : classQueries w t.trace = classQueries w s.trace := by
      rw [Quiet.classQueries _ _ hq]
      simp [classQueries, List.count_append]
    have hcn : t.m_ClassNames = s.m_ClassNames := by
      rw [Quiet.m_ClassNames _ _ hq]; rfl
    show (classQueries w t.trace ≤ 1 ∧
        (t.m_ClassNames.lookup w = none → classQueries w t.trace = 0)) ∧
      (fileQueries w t.trace ≤ 1 ∧
        ((mapAssign s.m_Filenames w0 _).lookup w = none → fileQueries w t.trace = 0))
    rw [hcq, hfq, hcn]
    refine ⟨(h w).1, ?_⟩
    by_cases hw : w0 = w
    · subst hw
      have hz := (h w0).2.2 h0
      rw [hz, lookup_mapAssign_self]
      simp
    · have hne : w ≠ w0 := fun e => hw e.symm
      rw [lookup_mapAssign_ne _ _ _ _ hne]
      simp only [hw, if_false, Nat.add_zero]
      exact (h w).2

theorem step_CountInv (LONG_PATH : Nat) (os : OS) (op : Op) (s : State) (h : CountInv s) :
    CountInv (step LONG_PATH os op s) := by
  cases hs : op.stateful with
  | false =>
    have hq := step_stateless LONG_PATH os op s hs
    exact CountInv_of_same s _ (Quiet.m_ClassNames _ _ hq) (Quiet.m_Filenames _ _ hq)
      (Quiet.classQueries _ _ hq) (Quiet.fileQueries _ _ hq) h
  | true =>
    cases op <;> simp only [Op.stateful] at hs <;> (try cases hs) <;> simp only [step]
    · exact classname_CountInv os _ s h
    · exact filename_CountInv LONG_PATH os _ s h
    · rename_i w0
      have hq := on_current_desktop_quiet os w0 s
      refine CountInv_of_same s _ ?_ ?_ ?_ ?_ h
      · rw [Quiet.m_ClassNames _ _ hq, acquire_m_ClassNames]
      · rw [Quiet.m_Filenames _ _ hq, acquire_m_Filenames]
      · intro w; rw [Quiet.classQueries _ _ hq, acquire_classQueries]
      · intro w; rw [Quiet.fileQueries _ _ hq, acquire_fileQueries]

theorem run_CountInv (LONG_PATH : Nat) :
    ∀ (calls : List (OS × Op)) (s : State), CountInv s → CountInv (run LONG_PATH calls s) := by
  intro calls
  induction calls with
  | nil => intro s h; exact h
  | cons c rest ih =>
    intro s h
    obtain ⟨os, op⟩ := c
    exact ih _ (step_CountInv LONG_PATH os op s h)

theorem init_CountInv : CountInv State.init := by
  intro w
  simp [State.init, classQueries, fileQueries]

/-! ## Claims about the caches -/

theorem filename_value_congr (LONG_PATH : Nat) (os : OS) (w : HWND) (s t : State)
    (h : s.m_Filenames = t.m_Filenames) :
    (filename LONG_PATH os w s).1 = (filename LONG_PATH os w t).1 := by
  unfold filename
  rw [h]
  dsimp only
  split_ifs <;> rfl

theorem classname_value_congr (os : OS) (w : HWND) (s t : State)
    (h : s.m_ClassNames = t.m_ClassNames) :
    (classname os w s).1 = (classname os w t).1 := by
  unfold classname
  rw [h]
  dsimp only
  split_ifs <;> rfl

/-- Claim C1. Once `classname(w)` (respectively `filename(w)`) has been called, the cache
entry it leaves for `w` survives every sequence of `Window` operations on any windows: the
entry still holds the value the first call returned, whatever that value is (the empty string
of the failure path included), and a later `classname(w)` (respectively `filename(w)`) returns
exactly that value and leaves the whole state, trace included, untouched, so it issues no OS
query and no report.  From process start, over every sequence of operations, at most one
class-name query and at most one file-name lookup is ever issued for each window. -/
theorem cached_value_is_permanent (LONG_PATH : Nat) :
    (∀ (s : State) (os : OS) (w : HWND) (calls : List (OS × Op)) (os2 : OS),
      (run LONG_PATH calls (classname os w s).2).m_ClassNames.lookup w =
          some (classname os w s).1 ∧
        classname os2 w (run LONG_PATH calls (classname os w s).2) =
          ((classname os w s).1, run LONG_PATH calls (classname os w s).2)) ∧
    (∀ (s : State) (os : OS) (w : HWND) (calls : List (OS × Op)) (os2 : OS),
      (run LONG_PATH calls (filename LONG_PATH os w s).2).m_Filenames.lookup w =
          some (filename LONG_PATH os w s).1 ∧
        filename LONG_PATH os2 w (run LONG_PATH calls (filename LONG_PATH os w s).2) =
          ((filename LONG_PATH os w s).1,
            run LONG_PATH calls (filename LONG_PATH os w s).2)) ∧
    (∀ (calls : List (OS × Op)) (w : HWND),
      classQueries w (run LONG_PATH calls State.init).trace ≤ 1 ∧
        fileQueries w (run LONG_PATH calls State.init).trace ≤ 1) := by
  refine ⟨?_, ?_, ?_⟩
  · intro s os w calls os2
    have h := run_m_ClassNames_lookup LONG_PATH w _ calls _ (classname_caches os w s)
    exact ⟨h, classname_hit os2 w _ _ h⟩
  · intro s os w calls os2
    have h := run_m_Filenames_lookup LONG_PATH w _ calls _ (filename_caches LONG_PATH os w s)
    exact ⟨h, filename_hit LONG_PATH os2 w _ _ h⟩
  · intro calls w
    have h := run_CountInv LONG_PATH calls State.init init_CountInv w
    exact ⟨h.1.1, h.2.1⟩

/-- Claim C9. A call `classname(w)` leaves the whole file-name cache as it was and a call
`filename(w)` leaves the whole class-name cache as it was; hence the value `filename(w)`
returns is the same whether or not `classname(w)` ran before it, and the other way round. -/
theorem caches_are_independent (LONG_PATH : Nat) (os os2 : OS) (w : HWND) (s : State) :
    (classname os w s).2.m_Filenames = s.m_Filenames ∧
    (filename LONG_PATH os w s).2.m_ClassNames = s.m_ClassNames ∧
    (filename LONG_PATH os2 w (classname os w s).2).1 = (filename LONG_PATH os2 w s).1 ∧
    (classname os2 w (filename LONG_PATH os w s).2).1 = (classname os2 w s).1 :=
  ⟨classname_m_Filenames os w s, filename_m_ClassNames LONG_PATH os w s,
    filename_value_congr LONG_PATH os2 w _ _ (classname_m_Filenames os w s),
    classname_value_congr os2 w _ _ (filename_m_ClassNames LONG_PATH os w s)⟩

/-! ## Claims about the desktop probe -/

theorem on_current_desktop_of_ready (os : OS) (w : HWND) (s : State) (p : Nat)
    (h : probe s = ProbeState.Ready p) :
    on_current_desktop os w s =
      (if SUCCEEDED (os.IsWindowOnCurrentVirtualDesktop p w).hr then
          (os.IsWindowOnCurrentVirtualDesktop p w).out != 0
        else true,
       { s with trace := s.trace ++ Event.IsWindowOnCurrentVirtualDesktop p w ::
          (if FAILED (os.IsWindowOnCurrentVirtualDesktop p w).hr then
            [Event.report (os.IsWindowOnCurrentVirtualDesktop p w).hr
              "Verifying if a window is on the current virtual desktop failed."]
           else []) }) := by
  obtain ⟨hf, hd⟩ := (probe_ready s p).mp h
  unfold on_current_desktop
  rw [acquire_of_ready os s p hd]
  simp only [hf, hd, ErrorHandle_fst, ErrorHandle_state]
  cases hS : SUCCEEDED (os.IsWindowOnCurrentVirtualDesktop p w).hr <;>
    simp [emit, FAILED_eq_not_SUCCEEDED, hS, hd, hf]

theorem on_current_desktop_acquire (os : OS) (w : HWND) (s : State) :
    on_current_desktop os w s = on_current_desktop os w (acquire os s) := by
  have hidem : acquire os (acquire os s) = acquire os s := by
    apply acquire_of_settled
    intro hu
    obtain ⟨hf, hd⟩ := (probe_uninitialized _).mp hu
    have := acquire_pointer_valid os s hf
    rw [hd] at this
    cases this
  unfold on_current_desktop
  rw [hidem]

/-- Claim C2. When a call of `on_current_desktop` attempts to acquire the desktop-membership
service and the acquisition fails, that call returns `true` after the single acquisition
attempt and its report, without any membership query; the probe is then `Failed` and stays
`Failed` through every later sequence of operations, the number of acquisition attempts never
grows again, and every later `on_current_desktop(w2)`, whatever the operating system would
answer by then, returns `true` and leaves the whole state, trace included, untouched. -/
theorem failed_acquisition_is_permanent (LONG_PATH : Nat) (os : OS) (w : HWND) (s : State)
    (hstate : probe s = ProbeState.Uninitialized)
    (hfail : FAILED os.CoCreateInstance.hr = true) :
    (on_current_desktop os w s).1 = true ∧
    (on_current_desktop os w s).2.trace =
      s.trace ++ [Event.CoCreateInstance,
        Event.report os.CoCreateInstance.hr
          "Initialization of IVirtualDesktopManager failed."] ∧
    probe (on_current_desktop os w s).2 = ProbeState.Failed ∧
    ∀ (calls : List (OS × Op)) (os2 : OS) (w2 : HWND),
      probe (run LONG_PATH calls (on_current_desktop os w s).2) = ProbeState.Failed ∧
      acquisitions (run LONG_PATH calls (on_current_desktop os w s).2).trace =
        acquisitions (on_current_desktop os w s).2.trace ∧
      on_current_desktop os2 w2 (run LONG_PATH calls (on_current_desktop os w s).2) =
        (true, run LONG_PATH calls (on_current_desktop os w s).2) := by
  obtain ⟨hf, hd⟩ := (probe_uninitialized s).mp hstate
  have hS : SUCCEEDED os.CoCreateInstance.hr = false := by
    have := FAILED_eq_not_SUCCEEDED os.CoCreateInstance.hr
    rw [hfail] at this
    cases h : SUCCEEDED os.CoCreateInstance.hr with
    | false => rfl
    | true => rw [h] at this; cases this
  have hacq := acquire_of_uninitialized os s hf hd
  rw [hS, hfail] at hacq
  simp only [Bool.not_false, if_true] at hacq
  have hafail : (acquire os s).failed = true := by rw [hacq]
  have hcall : on_current_desktop os w s = (true, acquire os s) := by
    rw [on_current_desktop_acquire, on_current_desktop_of_failed os w _ hafail]
  have hprobe : probe (on_current_desktop os w s).2 = ProbeState.Failed := by
    rw [hcall]; exact (probe_failed _).mpr hafail
  refine ⟨by rw [hcall], by rw [hcall, hacq], hprobe, ?_⟩
  intro calls os2 w2
  have hne : probe (on_current_desktop os w s).2 ≠ ProbeState.Uninitialized := by
    rw [hprobe]; intro h; cases h
  have hrun := run_probe_settled LONG_PATH calls _ hne
  have hp : probe (run LONG_PATH calls (on_current_desktop os w s).2) = ProbeState.Failed :=
    hrun.1.trans hprobe
  exact ⟨hp, hrun.2, on_current_desktop_of_failed os2 w2 _ ((probe_failed _).mp hp)⟩

theorem failed_acquisition_is_permanent_witness :
    probe State.init = ProbeState.Uninitialized ∧
    FAILED osNothing.CoCreateInstance.hr = true ∧
    (on_current_desktop osNothing 1 State.init).1 = true ∧
    on_current_desktop osDesktop 1
        (run 33000 [(osDesktop, Op.on_current_desktop 1), (osDesktop, Op.classname 1)]
          (on_current_desktop osNothing 1 State.init).2) =
      (true, run 33000 [(osDesktop, Op.on_current_desktop 1), (osDesktop, Op.classname 1)]
          (on_current_desktop osNothing 1 State.init).2) :=
  ⟨by decide, by decide,
    (failed_acquisition_is_permanent 33000 osNothing 1 State.init (by decide) (by decide)).1,
    ((failed_acquisition_is_permanent 33000 osNothing 1 State.init (by decide)
      (by decide)).2.2.2
      [(osDesktop, Op.on_current_desktop 1), (osDesktop, Op.classname 1)] osDesktop 1).2.2⟩

/-- Claim C7. A call `on_current_desktop(w)` returns `false` exactly when the service handle
is available (the probe was `Ready` with it, or the probe was `Uninitialized` and this call
acquired it), the membership query for `w` on that handle succeeds, and the answer is "not on
the current desktop"; in every other case (flag set, acquisition fails, query fails, answer
yes) it returns `true`. -/
theorem on_current_desktop_false_iff (os : OS) (w : HWND) (s : State) :
    (on_current_desktop os w s).1 = false ↔
      ∃ p : Nat,
        (probe s = ProbeState.Ready p ∨
          (probe s = ProbeState.Uninitialized ∧ SUCCEEDED os.CoCreateInstance.hr = true ∧
            os.CoCreateInstance.out = p)) ∧
        SUCCEEDED (os.IsWindowOnCurrentVirtualDesktop p w).hr = true ∧
        (os.IsWindowOnCurrentVirtualDesktop p w).out = 0 := by
  have key : ∀ (t : State) (p : Nat), probe t = ProbeState.Ready p →
      ((on_current_desktop os w t).1 = false ↔
        (SUCCEEDED (os.IsWindowOnCurrentVirtualDesktop p w).hr = true ∧
          (os.IsWindowOnCurrentVirtualDesktop p w).out = 0)) := by
    intro t p ht
    rw [on_current_desktop_of_ready os w t p ht]
    cases hS : SUCCEEDED (os.IsWindowOnCurrentVirtualDesktop p w).hr <;> simp
  cases hf : s.failed with
  | true =>
    rw [on_current_desktop_of_failed os w s hf]
    constructor
    · intro h; cases h
    · rintro ⟨p, hp | hp, _⟩
      · rw [probe_ready, hf] at hp; cases hp.1
      · rw [probe_uninitialized, hf] at hp; cases hp.1.1
  | false =>
    cases hd : s.desktop_manager with
    | some q =>
      have hq : probe s = ProbeState.Ready q := (probe_ready s q).mpr ⟨hf, hd⟩
      rw [key s q hq]
      constructor
      · intro h; exact ⟨q, Or.inl hq, h⟩
      · rintro ⟨p, hp | hp, h⟩
        · rw [hq] at hp; cases hp; exact h
        · rw [hq] at hp; cases hp.1
    | none =>
      have hu : probe s = ProbeState.Uninitialized := (probe_uninitialized s).mpr ⟨hf, hd⟩
      have hacq := acquire_of_uninitialized os s hf hd
      rw [on_current_desktop_acquire]
      cases hS : SUCCEEDED os.CoCreateInstance.hr with
      | false =>
        have hafail : (acquire os s).failed = true := by rw [hacq, hS]; rfl
        rw [on_current_desktop_of_failed os w _ hafail]
        constructor
        · intro h; cases h
        · rintro ⟨p, hp | hp, _⟩
          · rw [hu] at hp; cases hp
          · cases hp.2.1
      | true =>
        have hr : probe (acquire os s) = ProbeState.Ready os.CoCreateInstance.out := by
          rw [probe_ready, hacq, hS]; exact ⟨rfl, rfl⟩
        rw [key _ _ hr]
        constructor
        · intro h; exact ⟨_, Or.inr ⟨hu, rfl, rfl⟩, h⟩
        · rintro ⟨p, hp | hp, h⟩
          · rw [hu] at hp; cases hp
          · rw [← hp.2.2] at h; exact h

/-- Claim C8. The desktop probe changes state only out of `Uninitialized`: from process start
at most one acquisition is attempted over any sequence of operations; a probe that is `Ready`
or `Failed` keeps its state (the same service handle when `Ready`) through every sequence of
operations, with no further acquisition attempt; a call made while `Ready` queries that same
handle and stays `Ready` whether or not the membership query succeeds; a call made while
`Failed` changes nothing. -/
theorem probe_leaves_only_uninitialized (LONG_PATH : Nat) :
    (∀ calls : List (OS × Op), acquisitions (run LONG_PATH calls State.init).trace ≤ 1) ∧
    (∀ (calls : List (OS × Op)) (s : State), probe s ≠ ProbeState.Uninitialized →
      probe (run LONG_PATH calls s) = probe s ∧
        acquisitions (run LONG_PATH calls s).trace = acquisitions s.trace) ∧
    (∀ (os : OS) (w : HWND) (s : State) (p : Nat), probe s = ProbeState.Ready p →
      probe (on_current_desktop os w s).2 = ProbeState.Ready p ∧
        ∃ rest, (on_current_desktop os w s).2.trace =
            s.trace ++ Event.IsWindowOnCurrentVirtualDesktop p w :: rest ∧
          acquisitions rest = 0) ∧
    (∀ (os : OS) (w : HWND) (s : State), probe s = ProbeState.Failed →
      on_current_desktop os w s = (true, s)) := by
  refine ⟨?_, ?_, ?_, ?_⟩
  · intro calls
    exact (run_ProbeInv LONG_PATH calls State.init init_ProbeInv).1
  · exact run_probe_settled LONG_PATH
  · intro os w s p h
    rw [on_current_desktop_of_ready os w s p h]
    refine ⟨(probe_congr s _ rfl rfl).trans h, _, rfl, ?_⟩
    cases FAILED (os.IsWindowOnCurrentVirtualDesktop p w).hr <;> simp [acquisitions]
  · intro os w s h
    exact on_current_desktop_of_failed os w s ((probe_failed s).mp h)

theorem probe_leaves_only_uninitialized_witness :
    probe stateReady = ProbeState.Ready 9 ∧
    probe (on_current_desktop osNothing 5 stateReady).2 = ProbeState.Ready 9 ∧
    probe (run 33000 [(osNothing, Op.on_current_desktop 5), (osDesktop, Op.filename 1)]
      stateReady) = probe stateReady ∧
    on_current_desktop osDesktop 1 (on_current_desktop osNothing 1 State.init).2 =
      (true, (on_current_desktop osNothing 1 State.init).2) :=
  ⟨by decide,
    ((probe_leaves_only_uninitialized 33000).2.2.1 osNothing 5 stateReady 9 (by decide)).1,
    ((probe_leaves_only_uninitialized 33000).2.1
      [(osNothing, Op.on_current_desktop 5), (osDesktop, Op.filename 1)] stateReady
      (by decide)).1,
    (probe_leaves_only_uninitialized 33000).2.2.2 osDesktop 1
      (on_current_desktop osNothing 1 State.init).2 (by decide)⟩

/-! ## Claims about `filename` -/

theorem stripPath_spec (p : WString) (hlen : p.length < 2 ^ SIZE_BITS) :
    stripPath p = basenameSpec p ∧
    (∀ c ∈ stripPath p, c ∉ L "/\\") ∧
    ∃ pre, p = pre ++ stripPath p ∧
      (pre = [] ∨ ∃ pre0 c, pre = pre0 ++ [c] ∧ c ∈ L "/\\") := by
  rcases split_at_last_hit (L "/\\") p with hnone | ⟨pre, c, suf, hp, hc, hsuf⟩
  · rw [stripPath_no_separator p hnone, basenameSpec_no_separator p hnone]
    exact ⟨rfl, hnone, [], rfl, Or.inl rfl⟩
  · subst hp
    rw [stripPath_after_separator pre c suf hc hsuf hlen,
      basenameSpec_after_separator pre c suf hc hsuf]
    refine ⟨rfl, hsuf, pre ++ [c], by simp, Or.inr ⟨pre, c, rfl, hc⟩⟩

theorem filename_success (LONG_PATH : Nat) (os : OS) (w : HWND) (s : State)
    (tid pid handle : Nat) (p : WString)
    (hmiss : s.m_Filenames.lookup w = none)
    (hpid : os.GetWindowThreadProcessId w = some (tid, pid))
    (hopen : os.OpenProcess PROCESS_QUERY_LIMITED_INFORMATION false pid = Win32.ok handle)
    (hvalid : handle ≠ 0)
    (hquery : os.QueryFullProcessImageName handle 0 LONG_PATH = Win32.ok p) :
    filename LONG_PATH os w s =
      (stripPath p,
        { s with
          m_Filenames := mapAssign s.m_Filenames w (stripPath p)
          trace := s.trace ++ [Event.GetWindowThreadProcessId w,
            Event.OpenProcess PROCESS_QUERY_LIMITED_INFORMATION pid,
            Event.QueryFullProcessImageName handle LONG_PATH,
            Event.CloseHandle handle] }) := by
  have hc : mapCount s.m_Filenames w = 0 := (mapCount_eq_zero _ _).mpr hmiss
  simp [filename, hc, GetWindowThreadProcessId, hpid, OpenProcess, hopen, hvalid,
    QueryFullProcessImageName, hquery, emit]

/-- Claim C3. When the image-path query of a `filename()` cache miss yields the full path
`p`, `filename()` returns and caches for the window the basename of `p`, that is the code
units of `p` after the last `/` or `\` (all of `p` when it has neither): the result holds no
separator, and `p` is a prefix, empty or ending in a separator, followed by the result.
In particular `C:\Apps\tool.exe` gives `tool.exe` and `/usr/bin/tool` gives `tool`. -/
theorem filename_is_basename (LONG_PATH : Nat) (os : OS) (w : HWND) (s : State)
    (tid pid handle : Nat) (p : WString)
    (hmiss : s.m_Filenames.lookup w = none)
    (hpid : os.GetWindowThreadProcessId w = some (tid, pid))
    (hopen : os.OpenProcess PROCESS_QUERY_LIMITED_INFORMATION false pid = Win32.ok handle)
    (hvalid : handle ≠ 0)
    (hquery : os.QueryFullProcessImageName handle 0 LONG_PATH = Win32.ok p)
    (hlen : p.length < 2 ^ SIZE_BITS) :
    (filename LONG_PATH os w s).1 = basenameSpec p ∧
    (filename LONG_PATH os w s).2.m_Filenames.lookup w = some (basenameSpec p) ∧
    (∀ c ∈ (filename LONG_PATH os w s).1, c ∉ L "/\\") ∧
    (∃ pre, p = pre ++ (filename LONG_PATH os w s).1 ∧
      (pre = [] ∨ ∃ pre0 c, pre = pre0 ++ [c] ∧ c ∈ L "/\\")) ∧
    stripPath (L "C:\\Apps\\tool.exe") = L "tool.exe" ∧
    stripPath (L "/usr/bin/tool") = L "tool" := by
  have hrun := filename_success LONG_PATH os w s tid pid handle p hmiss hpid hopen hvalid hquery
  have hspec := stripPath_spec p hlen
  have hcache := filename_caches LONG_PATH os w s
  rw [hrun] at hcache ⊢
  refine ⟨hspec.1, ?_, hspec.2.1, hspec.2.2, by decide, by decide⟩
  rw [← hspec.1]
  exact hcache

theorem filename_is_basename_witness :
    (filename 33000 osDesktop 1 State.init).1 = L "tool.exe" ∧
    (filename 33000 osDesktop 1 State.init).2.m_Filenames.lookup 1 = some (L "tool.exe") :=
  have h := filename_is_basename 33000 osDesktop 1 State.init 11 4242 7
    (L "C:\\Apps\\tool.exe") (by decide) (by decide) rfl (by decide) rfl (by decide)
  ⟨h.1.trans (by decide), h.2.1.trans (by decide)⟩

theorem filename_open_failure (LONG_PATH : Nat) (os : OS) (w : HWND) (s : State)
    (e : ErrorCode) (hmiss : s.m_Filenames.lookup w = none)
    (hopen : os.OpenProcess PROCESS_QUERY_LIMITED_INFORMATION false
      (GetWindowThreadProcessId os w os.indeterminateDWORD).2 = Win32.fail e) :
    (filename LONG_PATH os w s).1 = [] ∧
    (filename LONG_PATH os w s).2.m_Filenames.lookup w = some [] ∧
    reports (filename LONG_PATH os w s).2.trace =
      reports s.trace ++
        [(HRESULT_FROM_WIN32 e.code, "Getting process handle of a window failed.")] := by
  have hc : mapCount s.m_Filenames w = 0 := (mapCount_eq_zero _ _).mpr hmiss
  have hcache := filename_caches LONG_PATH os w s
  have hval : (filename LONG_PATH os w s).1 = [] := by
    simp [filename, hc, OpenProcess, hopen]
  refine ⟨hval, by rw [← hval]; exact hcache, ?_⟩
  simp [filename, hc, OpenProcess, hopen, ErrorHandle_state, HRESULT_FROM_WIN32_failed,
    reports_append, reports]

theorem filename_query_failure (LONG_PATH : Nat) (os : OS) (w : HWND) (s : State)
    (handle : Nat) (e : ErrorCode) (hmiss : s.m_Filenames.lookup w = none)
    (hopen : os.OpenProcess PROCESS_QUERY_LIMITED_INFORMATION false
      (GetWindowThreadProcessId os w os.indeterminateDWORD).2 = Win32.ok handle)
    (hvalid : handle ≠ 0)
    (hquery : os.QueryFullProcessImageName handle 0 LONG_PATH = Win32.fail e) :
    (filename LONG_PATH os w s).1 = [] ∧
    (filename LONG_PATH os w s).2.m_Filenames.lookup w = some [] ∧
    reports (filename LONG_PATH os w s).2.trace =
      reports s.trace ++
        [(HRESULT_FROM_WIN32 e.code, "Getting file name of a window failed.")] := by
  have hc : mapCount s.m_Filenames w = 0 := (mapCount_eq_zero _ _).mpr hmiss
  have hcache := filename_caches LONG_PATH os w s
  have hval : (filename LONG_PATH os w s).1 = [] := by
    simp [filename, hc, OpenProcess, hopen, hvalid, QueryFullProcessImageName, hquery]
  refine ⟨hval, by rw [← hval]; exact hcache, ?_⟩
  simp [filename, hc, OpenProcess, hopen, hvalid, QueryFullProcessImageName, hquery,
    ErrorHandle_state, HRESULT_FROM_WIN32_failed, reports_append, reports]

/-- Claim C5, evaluated where it fails.  Window 2 does not exist, so the process-id stage of
`filename()` fails; its result is not checked and `ProcessId` keeps the leftover 4242, which
`OpenProcess` opens.  The call returns and caches `tool.exe`, the image of an unrelated
process, and nothing reaches the error sink. -/
theorem filename_ignores_process_id_failure :
    osLeftovers.GetWindowThreadProcessId 2 = none ∧
    (filename 33000 osLeftovers 2 State.init).1 = L "tool.exe" ∧
    (filename 33000 osLeftovers 2 State.init).2.m_Filenames.lookup 2 = some (L "tool.exe") ∧
    reports (filename 33000 osLeftovers 2 State.init).2.trace = [] := by
  decide

/-! ## Claims about the uncached queries -/

theorem placement_of_failure (os : OS) (w : HWND) (s : State) (e : ErrorCode)
    (h : os.GetWindowPlacement w WINDOWPLACEMENT.zeroed = Win32.fail e) :
    placement os w s =
      (WINDOWPLACEMENT.zeroed,
        { s with trace := s.trace ++ [Event.GetWindowPlacement w, Event.GetLastError,
          Event.report (HRESULT_FROM_WIN32 e.code)
            "Getting placement of a window failed."] }) := by
  simp [placement, GetWindowPlacement, h, ErrorHandle_state, HRESULT_FROM_WIN32_failed, emit]

theorem placement_of_success (os : OS) (w : HWND) (s : State) (wp : WINDOWPLACEMENT)
    (h : os.GetWindowPlacement w WINDOWPLACEMENT.zeroed = Win32.ok wp) :
    placement os w s = (wp, { s with trace := s.trace ++ [Event.GetWindowPlacement w] }) := by
  simp [placement, GetWindowPlacement, h, emit]

/-- Claim C6. When the OS placement query fails, `placement()` returns the zeroed structure
(length 0) and the error sink receives exactly one report; `state()` then returns `SW_SHOW`,
again with that single report, instead of an error.  When the query yields a structure of
non-zero length, `state()` returns its `showCmd`. -/
theorem placement_failure_defaults (os : OS) (w : HWND) (s : State) :
    (∀ e : ErrorCode, os.GetWindowPlacement w WINDOWPLACEMENT.zeroed = Win32.fail e →
      (placement os w s).1 = WINDOWPLACEMENT.zeroed ∧
      (placement os w s).1.length = 0 ∧
      reports (placement os w s).2.trace =
        reports s.trace ++
          [(HRESULT_FROM_WIN32 e.code, "Getting placement of a window failed.")] ∧
      (state os w s).1 = SW_SHOW ∧
      reports (state os w s).2.trace =
        reports s.trace ++
          [(HRESULT_FROM_WIN32 e.code, "Getting placement of a window failed.")]) ∧
    (∀ wp : WINDOWPLACEMENT, os.GetWindowPlacement w WINDOWPLACEMENT.zeroed = Win32.ok wp →
      wp.length ≠ 0 →
      (placement os w s).1 = wp ∧ (state os w s).1 = wp.showCmd ∧
      reports (state os w s).2.trace = reports s.trace) := by
  constructor
  · intro e h
    have hp := placement_of_failure os w s e h
    simp only [state, hp]
    simp [reports_append, reports, WINDOWPLACEMENT.zeroed]
  · intro wp h hlen
    have hp := placement_of_success os w s wp h
    simp only [state, hp]
    simp [reports_append, reports, hlen]

theorem placement_failure_defaults_witness :
    (placement osNothing 1 State.init).1 = WINDOWPLACEMENT.zeroed ∧
    (state osNothing 1 State.init).1 = SW_SHOW ∧
    (state osDesktop 1 State.init).1 = 3 :=
  ⟨((placement_failure_defaults osNothing 1 State.init).1 ERROR_INVALID_WINDOW_HANDLE rfl).1,
    ((placement_failure_defaults osNothing 1 State.init).1
      ERROR_INVALID_WINDOW_HANDLE rfl).2.2.2.1,
    ((placement_failure_defaults osDesktop 1 State.init).2
      { WINDOWPLACEMENT.zeroed with length := 44, showCmd := 3 } rfl (by decide)).2.1⟩

theorem get_attribute_of_failure {T : Type} (query : HWND → Nat → Nat → ComAnswer T)
    (sizeofT : Nat) (indeterminate : T) (w : HWND) (attrib : Nat) (s : State)
    (h : FAILED (query w attrib sizeofT).hr = true) :
    get_attribute query sizeofT indeterminate w attrib s =
      (indeterminate,
        { s with trace := s.trace ++ [Event.DwmGetWindowAttribute w attrib sizeofT,
          Event.report (query w attrib sizeofT).hr
            "Getting attribute of a window failed."] }) := by
  have hS : SUCCEEDED (query w attrib sizeofT).hr = false := by
    have := FAILED_eq_not_SUCCEEDED (query w attrib sizeofT).hr
    rw [h] at this
    cases hx : SUCCEEDED (query w attrib sizeofT).hr with
    | false => rfl
    | true => rw [hx] at this; cases this
  simp [get_attribute, hS, h, ErrorHandle_state, emit]

/-- Claim C4, evaluated where it fails.  The attribute query for window 2 fails with
`E_INVALIDARG`; `get_attribute<BOOL>` and `get_attribute<RECT>` each hand back the content
their uninitialised local `T attribute;` happened to hold (here the pattern `0xCCCCCCCC`),
not the zero value, while the error sink receives exactly one report. -/
theorem get_attribute_returns_uninitialised_local :
    FAILED (osLeftovers.DwmGetWindowAttributeBOOL 2 14 4).hr = true ∧
    (get_attribute_BOOL osLeftovers 2 14 State.init).1 = -858993460 ∧
    (get_attribute_BOOL osLeftovers 2 14 State.init).1 ≠ 0 ∧
    reports (get_attribute_BOOL osLeftovers 2 14 State.init).2.trace =
      [(E_INVALIDARG, "Getting attribute of a window failed.")] ∧
    (get_attribute_RECT osLeftovers 2 9 State.init).1 ≠ RECT.zeroed ∧
    reports (get_attribute_RECT osLeftovers 2 9 State.init).2.trace =
      [(E_INVALIDARG, "Getting attribute of a window failed.")] := by
  decide

theorem title_of_text (os : OS) (w : HWND) (s : State) (t : WString)
    (h : os.windowText w = Win32.ok t) (hne : t ≠ []) :
    title os w s =
      (t, { s with trace := s.trace ++
        [Event.GetWindowTextLength w, Event.GetWindowText w (t.length + 1)] }) := by
  have hlen : t.length ≠ 0 := by
    intro h0; exact hne (List.length_eq_zero.mp h0)
  simp [title, GetWindowTextLength, GetWindowText, h, hlen, emit]

theorem title_of_failure (os : OS) (w : HWND) (s : State) (e : ErrorCode)
    (h : os.windowText w = Win32.fail e) :
    (title os w s).1 = [] ∧
    reports (title os w s).2.trace =
      reports s.trace ++ [(HRESULT_FROM_WIN32 e.code, "Getting title of a window failed.")] := by
  simp [title, GetWindowTextLength, GetWindowText, h, ErrorHandle_state,
    HRESULT_FROM_WIN32_failed, reports_append, reports]

/-- Claim C10, evaluated where it fails.  Window 1 exists and its text is available: it is
the empty string.  `GetWindowText` then copies 0 code units, `title()` takes this for a
failure and reports "Getting title of a window failed." with the stale last-error code of the
thread, although no query failed. -/
theorem title_reports_failure_for_empty_text :
    osEmptyTitle.windowText 1 = Win32.ok [] ∧
    osEmptyTitle.lastError = 5 ∧
    (GetWindowText osEmptyTitle 5 1 1).1 = 0 ∧
    (title osEmptyTitle 1 State.init).1 = [] ∧
    reports (title osEmptyTitle 1 State.init).2.trace =
      [(HRESULT_FROM_WIN32 5, "Getting title of a window failed.")] ∧
    FAILED (HRESULT_FROM_WIN32 5) = true :=
  ⟨rfl, by decide⟩

end TranslucentTB
